import Mathlib

/-!
Shallow embedding of the pydantic domain model in `src/models.py`
(a validated food-delivery order / customer schema).

Raw external input is a mapping from external field names (aliases) to raw
values; each record type exposes one construction entry point that either
returns a fully validated instance or a structured list of validation
failures, collecting all field failures of one construction attempt.
Floats are modelled as rationals (the source only compares them with
order relations), datetimes and dates as integer instants.
-/

/-- A raw (unvalidated) value, as decoded from the wire into a mapping. -/
inductive Raw where
  | null
  | str (s : String)
  | int (n : Int)
  | rat (q : ℚ)
  | dt (t : Int)
  | date (d : Int)
  | list (xs : List Raw)
  | map (m : List (String × Raw))

/-- A raw mapping: external field name to raw value, first binding wins. -/
def RawMap := List (String × Raw)

/-- Look up a key in a raw mapping (first binding wins). -/
def RawMap.lookup : RawMap → String → Option Raw
  | [], _ => none
  | (k, v) :: rest, name => if k = name then some v else RawMap.lookup rest name

/-- Remove every binding of a key from a raw mapping. -/
def RawMap.erase : RawMap → String → RawMap
  | [], _ => []
  | (k, v) :: rest, name =>
      if k = name then RawMap.erase rest name
      else (k, v) :: RawMap.erase rest name

/-- One step of an error path: a record field or a sequence index. -/
inductive PathSeg where
  | field (s : String)
  | idx (n : Nat)
deriving DecidableEq

/-- The error taxonomy of the validation engine. -/
inductive VErr where
  | missingField (path : List PathSeg)
  | typeMismatch (path : List PathSeg)
  | constraintViolation (path : List PathSeg) (constraint : String)
  | invalidEnumValue (path : List PathSeg)
  | nestedValidationFailure (path : List PathSeg) (children : List VErr)

/-- Result of validating a field or constructing a record. -/
abbrev VResult (α : Type) := Except (List VErr) α

/-- Applicative combination that collects the errors of both sides
(no short-circuit on the first failing field). -/
def vApp {α β : Type} : VResult (α → β) → VResult α → VResult β
  | .ok f, .ok a => .ok (f a)
  | .ok _, .error e => .error e
  | .error e, .ok _ => .error e
  | .error e1, .error e2 => .error (e1 ++ e2)

/-- The error list carried by a validation result (empty on success). -/
def errsOf {α : Type} : VResult α → List VErr
  | .ok _ => []
  | .error e => e

theorem errsOf_vApp {α β : Type} (x : VResult (α → β)) (y : VResult α) :
    errsOf (vApp x y) = errsOf x ++ errsOf y := by
  cases x <;> cases y <;> simp [vApp, errsOf]

theorem vApp_ok_iff {α β : Type} (x : VResult (α → β)) (y : VResult α) (b : β) :
    vApp x y = .ok b ↔ ∃ f a, x = .ok f ∧ y = .ok a ∧ f a = b := by
  cases x <;> cases y <;> simp [vApp]

/-! ## Field validators

Each validator is a pure handler on the looked-up raw value
(`RawMap.lookup m name`), so a record's construction depends on the raw
mapping only through the lookups of its declared external names. -/

/-- Required plain string field. -/
def reqStr (name : String) : Option Raw → VResult String
  | none => .error [.missingField [.field name]]
  | some (.str s) => .ok s
  | some _ => .error [.typeMismatch [.field name]]

/-- Required string field with a minimum length constraint. -/
def reqStrMin (name : String) (lo : Nat) : Option Raw → VResult String
  | none => .error [.missingField [.field name]]
  | some (.str s) =>
      if lo ≤ s.length then .ok s
      else .error [.constraintViolation [.field name] "min_length"]
  | some _ => .error [.typeMismatch [.field name]]

/-- Required string field with both minimum and maximum length constraints. -/
def reqStrLen (name : String) (lo hi : Nat) : Option Raw → VResult String
  | none => .error [.missingField [.field name]]
  | some (.str s) =>
      if lo ≤ s.length then
        if s.length ≤ hi then .ok s
        else .error [.constraintViolation [.field name] "max_length"]
      else .error [.constraintViolation [.field name] "min_length"]
  | some _ => .error [.typeMismatch [.field name]]

/-- Optional string field (absent or null both give the unset marker). -/
def optStr (name : String) : Option Raw → VResult (Option String)
  | none => .ok none
  | some .null => .ok none
  | some (.str s) => .ok (some s)
  | some _ => .error [.typeMismatch [.field name]]

/-- Required integer field with a lower bound (`ge`). -/
def reqIntGe (name : String) (lo : Int) : Option Raw → VResult Int
  | none => .error [.missingField [.field name]]
  | some (.int n) =>
      if lo ≤ n then .ok n
      else .error [.constraintViolation [.field name] "ge"]
  | some _ => .error [.typeMismatch [.field name]]

/-- Required integer field with both bounds (`ge` and `le`). -/
def reqIntRange (name : String) (lo hi : Int) : Option Raw → VResult Int
  | none => .error [.missingField [.field name]]
  | some (.int n) =>
      if lo ≤ n then
        if n ≤ hi then .ok n
        else .error [.constraintViolation [.field name] "le"]
      else .error [.constraintViolation [.field name] "ge"]
  | some _ => .error [.typeMismatch [.field name]]

/-- Coerce a raw number to a rational (float fields accept ints too). -/
def Raw.toRat : Raw → Option ℚ
  | .rat q => some q
  | .int n => some (n : ℚ)
  | _ => none

/-- Required float field with a lower bound (`ge`). -/
def reqRatGe (name : String) (lo : ℚ) : Option Raw → VResult ℚ
  | none => .error [.missingField [.field name]]
  | some v =>
      match v.toRat with
      | some q =>
          if lo ≤ q then .ok q
          else .error [.constraintViolation [.field name] "ge"]
      | none => .error [.typeMismatch [.field name]]

/-- Required float field with both bounds (`ge` and `le`). -/
def reqRatRange (name : String) (lo hi : ℚ) : Option Raw → VResult ℚ
  | none => .error [.missingField [.field name]]
  | some v =>
      match v.toRat with
      | some q =>
          if lo ≤ q then
            if q ≤ hi then .ok q
            else .error [.constraintViolation [.field name] "le"]
          else .error [.constraintViolation [.field name] "ge"]
      | none => .error [.typeMismatch [.field name]]

/-- Required datetime (instant) field. -/
def reqDt (name : String) : Option Raw → VResult Int
  | none => .error [.missingField [.field name]]
  | some (.dt t) => .ok t
  | some _ => .error [.typeMismatch [.field name]]

/-- Required calendar-date field. -/
def reqDate (name : String) : Option Raw → VResult Int
  | none => .error [.missingField [.field name]]
  | some (.date d) => .ok d
  | some _ => .error [.typeMismatch [.field name]]

/-- Validate the elements of a raw list as strings, reporting every bad
index, starting at index `i`. -/
def strElems (name : String) : List Raw → Nat → VResult (List String)
  | [], _ => .ok []
  | x :: rest, i =>
      vApp
        (vApp (.ok List.cons)
          (match x with
            | .str s => .ok s
            | _ => .error [.typeMismatch [.field name, .idx i]]))
        (strElems name rest (i + 1))

/-- Sequence-of-strings field with a default-empty factory: absent means
the empty sequence, never a missing-field failure. -/
def optListStr (name : String) : Option Raw → VResult (List String)
  | none => .ok []
  | some (.list xs) => strElems name xs 0
  | some _ => .error [.typeMismatch [.field name]]

/-- Validate the elements of a raw list as nested records, wrapping each
failing element in a nested-validation failure at its index. -/
def recElems {α : Type} (name : String) (child : RawMap → VResult α) :
    List Raw → Nat → VResult (List α)
  | [], _ => .ok []
  | x :: rest, i =>
      vApp
        (vApp (.ok List.cons)
          (match x with
            | .map m =>
                match child m with
                | .ok a => .ok a
                | .error es => .error [.nestedValidationFailure [.field name, .idx i] es]
            | _ => .error [.typeMismatch [.field name, .idx i]]))
        (recElems name child rest (i + 1))

/-- Required sequence-of-records field (no default: absent is a failure). -/
def reqListRec {α : Type} (name : String) (child : RawMap → VResult α) :
    Option Raw → VResult (List α)
  | none => .error [.missingField [.field name]]
  | some (.list xs) => recElems name child xs 0
  | some _ => .error [.typeMismatch [.field name]]

/-- Sequence-of-records field with a default-empty factory. -/
def optListRec {α : Type} (name : String) (child : RawMap → VResult α) :
    Option Raw → VResult (List α)
  | none => .ok []
  | some (.list xs) => recElems name child xs 0
  | some _ => .error [.typeMismatch [.field name]]

/-- Required nested-record field: the child's failures are wrapped in a
nested-validation failure carrying the field name. -/
def nestedRec {α : Type} (name : String) (child : RawMap → VResult α) :
    Option Raw → VResult α
  | none => .error [.missingField [.field name]]
  | some (.map m) =>
      match child m with
      | .ok a => .ok a
      | .error es => .error [.nestedValidationFailure [.field name] es]
  | some _ => .error [.typeMismatch [.field name]]

/-- Required closed-set enum field backed by strings. -/
def reqEnum {α : Type} (name : String) (parse : String → Option α) :
    Option Raw → VResult α
  | none => .error [.missingField [.field name]]
  | some (.str s) =>
      match parse s with
      | some a => .ok a
      | none => .error [.invalidEnumValue [.field name]]
  | some _ => .error [.typeMismatch [.field name]]

/-! ## Enumerations (`OrderStatus`, `SpiceLevel`) -/

/-- Closed set of order lifecycle statuses, in source declaration order. -/
inductive OrderStatus where
  | delivered
  | cancelled
  | pending
  | preparing
  | out_for_delivery
deriving DecidableEq

/-- Parse a raw string into an `OrderStatus` (exact, case-sensitive match). -/
def OrderStatus.parse (s : String) : Option OrderStatus :=
  if s = "delivered" then some .delivered
  else if s = "cancelled" then some .cancelled
  else if s = "pending" then some .pending
  else if s = "preparing" then some .preparing
  else if s = "out_for_delivery" then some .out_for_delivery
  else none

/-- The string backing an `OrderStatus` member. -/
def OrderStatus.toStr : OrderStatus → String
  | .delivered => "delivered"
  | .cancelled => "cancelled"
  | .pending => "pending"
  | .preparing => "preparing"
  | .out_for_delivery => "out_for_delivery"

/-- Closed set of spice-level preferences. -/
inductive SpiceLevel where
  | Mild
  | Medium
  | Hot
deriving DecidableEq

/-- Parse a raw string into a `SpiceLevel` (exact, case-sensitive match). -/
def SpiceLevel.parse (s : String) : Option SpiceLevel :=
  if s = "Mild" then some .Mild
  else if s = "Medium" then some .Medium
  else if s = "Hot" then some .Hot
  else none

/-- The string backing a `SpiceLevel` member. -/
def SpiceLevel.toStr : SpiceLevel → String
  | .Mild => "Mild"
  | .Medium => "Medium"
  | .Hot => "Hot"

/-- Serialize an optional string (the unset marker serializes as null). -/
def optStrRaw : Option String → Raw
  | none => .null
  | some s => .str s

/-! ## Leaf records -/

/-- Basic order identification and customer information (`OrderModel`). -/
structure OrderModel where
  orderId : String
  customerId : String
  customerName : String
deriving DecidableEq

def OrderModel.construct (m : RawMap) : VResult OrderModel :=
  vApp (vApp (vApp (.ok OrderModel.mk)
    (reqStrMin "orderId" 5 (m.lookup "orderId")))
    (reqStrMin "customerId" 5 (m.lookup "customerId")))
    (reqStrMin "customerName" 5 (m.lookup "customerName"))

def OrderModel.serialize (x : OrderModel) : RawMap :=
  [("orderId", .str x.orderId),
   ("customerId", .str x.customerId),
   ("customerName", .str x.customerName)]

def OrderModel.Valid (x : OrderModel) : Prop :=
  5 ≤ x.orderId.length ∧ 5 ≤ x.customerId.length ∧ 5 ≤ x.customerName.length

instance (x : OrderModel) : Decidable x.Valid := by
  unfold OrderModel.Valid; infer_instance

/-- The restaurant from which the order was placed. -/
structure Restaurant where
  restaurantId : Option String
  name : String
  location : String
  cuisine : Option String
  rating : ℚ
  deliveryTime : String
deriving DecidableEq

def Restaurant.construct (m : RawMap) : VResult Restaurant :=
  vApp (vApp (vApp (vApp (vApp (vApp (.ok Restaurant.mk)
    (optStr "restaurantId" (m.lookup "restaurantId")))
    (reqStr "name" (m.lookup "name")))
    (reqStr "location" (m.lookup "location")))
    (optStr "cuisine" (m.lookup "cuisine")))
    (reqRatRange "rating" 0 5 (m.lookup "rating")))
    (reqStr "deliveryTime" (m.lookup "deliveryTime"))

def Restaurant.serialize (x : Restaurant) : RawMap :=
  [("restaurantId", optStrRaw x.restaurantId),
   ("name", .str x.name),
   ("location", .str x.location),
   ("cuisine", optStrRaw x.cuisine),
   ("rating", .rat x.rating),
   ("deliveryTime", .str x.deliveryTime)]

def Restaurant.Valid (x : Restaurant) : Prop :=
  0 ≤ x.rating ∧ x.rating ≤ 5

instance (x : Restaurant) : Decidable x.Valid := by
  unfold Restaurant.Valid; infer_instance

/-- An individual ordered item. -/
structure Item where
  name : String
  quantity : Int
  price : ℚ
  customizations : List String
deriving DecidableEq

def Item.construct (m : RawMap) : VResult Item :=
  vApp (vApp (vApp (vApp (.ok Item.mk)
    (reqStr "name" (m.lookup "name")))
    (reqIntGe "quantity" 1 (m.lookup "quantity")))
    (reqRatGe "price" 0 (m.lookup "price")))
    (optListStr "customizations" (m.lookup "customizations"))

def Item.serialize (x : Item) : RawMap :=
  [("name", .str x.name),
   ("quantity", .int x.quantity),
   ("price", .rat x.price),
   ("customizations", .list (x.customizations.map Raw.str))]

def Item.Valid (x : Item) : Prop :=
  1 ≤ x.quantity ∧ 0 ≤ x.price

instance (x : Item) : Decidable x.Valid := by
  unfold Item.Valid; infer_instance

/-- Detailed price breakdown for an order. -/
structure Pricing where
  itemTotal : ℚ
  deliveryFee : ℚ
  platformFee : ℚ
  gst : ℚ
  discount : ℚ
  totalAmount : ℚ
deriving DecidableEq

def Pricing.construct (m : RawMap) : VResult Pricing :=
  vApp (vApp (vApp (vApp (vApp (vApp (.ok Pricing.mk)
    (reqRatGe "itemTotal" 0 (m.lookup "itemTotal")))
    (reqRatGe "deliveryFee" 0 (m.lookup "deliveryFee")))
    (reqRatGe "platformFee" 0 (m.lookup "platformFee")))
    (reqRatGe "gst" 0 (m.lookup "gst")))
    (reqRatGe "discount" 0 (m.lookup "discount")))
    (reqRatGe "totalAmount" 0 (m.lookup "totalAmount"))

def Pricing.serialize (x : Pricing) : RawMap :=
  [("itemTotal", .rat x.itemTotal),
   ("deliveryFee", .rat x.deliveryFee),
   ("platformFee", .rat x.platformFee),
   ("gst", .rat x.gst),
   ("discount", .rat x.discount),
   ("totalAmount", .rat x.totalAmount)]

def Pricing.Valid (x : Pricing) : Prop :=
  0 ≤ x.itemTotal ∧ 0 ≤ x.deliveryFee ∧ 0 ≤ x.platformFee ∧
  0 ≤ x.gst ∧ 0 ≤ x.discount ∧ 0 ≤ x.totalAmount

instance (x : Pricing) : Decidable x.Valid := by
  unfold Pricing.Valid; infer_instance

/-- Payment details of an order (`transactionId` carries an explicit alias
equal to its own name). -/
structure Payment where
  method : String
  transactionId : String
  status : String
deriving DecidableEq

def Payment.construct (m : RawMap) : VResult Payment :=
  vApp (vApp (vApp (.ok Payment.mk)
    (reqStr "method" (m.lookup "method")))
    (reqStr "transactionId" (m.lookup "transactionId")))
    (reqStr "status" (m.lookup "status"))

def Payment.serialize (x : Payment) : RawMap :=
  [("method", .str x.method),
   ("transactionId", .str x.transactionId),
   ("status", .str x.status)]

def Payment.Valid (_ : Payment) : Prop := True

instance (x : Payment) : Decidable x.Valid := by
  unfold Payment.Valid; infer_instance

/-- The address where the order is delivered. -/
structure DeliveryAddress where
  label : String
  address : String
  city : String
  pincode : String
deriving DecidableEq

def DeliveryAddress.construct (m : RawMap) : VResult DeliveryAddress :=
  vApp (vApp (vApp (vApp (.ok DeliveryAddress.mk)
    (reqStr "label" (m.lookup "label")))
    (reqStr "address" (m.lookup "address")))
    (reqStr "city" (m.lookup "city")))
    (reqStrLen "pincode" 6 6 (m.lookup "pincode"))

def DeliveryAddress.serialize (x : DeliveryAddress) : RawMap :=
  [("label", .str x.label),
   ("address", .str x.address),
   ("city", .str x.city),
   ("pincode", .str x.pincode)]

def DeliveryAddress.Valid (x : DeliveryAddress) : Prop :=
  x.pincode.length = 6

instance (x : DeliveryAddress) : Decidable x.Valid := by
  unfold DeliveryAddress.Valid; infer_instance

/-- The delivery agent assigned to the order. -/
structure DeliveryPartner where
  name : String
  rating : ℚ
  phone : String
deriving DecidableEq

def DeliveryPartner.construct (m : RawMap) : VResult DeliveryPartner :=
  vApp (vApp (vApp (.ok DeliveryPartner.mk)
    (reqStr "name" (m.lookup "name")))
    (reqRatRange "rating" 0 5 (m.lookup "rating")))
    (reqStr "phone" (m.lookup "phone"))

def DeliveryPartner.serialize (x : DeliveryPartner) : RawMap :=
  [("name", .str x.name),
   ("rating", .rat x.rating),
   ("phone", .str x.phone)]

def DeliveryPartner.Valid (x : DeliveryPartner) : Prop :=
  0 ≤ x.rating ∧ x.rating ≤ 5

instance (x : DeliveryPartner) : Decidable x.Valid := by
  unfold DeliveryPartner.Valid; infer_instance

/-- Order lifecycle timestamps; every field declares a wire alias equal to
its own name. -/
structure Timeline where
  orderPlaced : Int
  restaurantAccepted : Int
  foodReady : Int
  outForDelivery : Int
  delivered : Int
deriving DecidableEq

def Timeline.construct (m : RawMap) : VResult Timeline :=
  vApp (vApp (vApp (vApp (vApp (.ok Timeline.mk)
    (reqDt "orderPlaced" (m.lookup "orderPlaced")))
    (reqDt "restaurantAccepted" (m.lookup "restaurantAccepted")))
    (reqDt "foodReady" (m.lookup "foodReady")))
    (reqDt "outForDelivery" (m.lookup "outForDelivery")))
    (reqDt "delivered" (m.lookup "delivered"))

def Timeline.serialize (x : Timeline) : RawMap :=
  [("orderPlaced", .dt x.orderPlaced),
   ("restaurantAccepted", .dt x.restaurantAccepted),
   ("foodReady", .dt x.foodReady),
   ("outForDelivery", .dt x.outForDelivery),
   ("delivered", .dt x.delivered)]

def Timeline.Valid (_ : Timeline) : Prop := True

instance (x : Timeline) : Decidable x.Valid := by
  unfold Timeline.Valid; infer_instance

/-- User ratings and review for an order. -/
structure Ratings where
  food : Int
  delivery : Int
  review : String
deriving DecidableEq

def Ratings.construct (m : RawMap) : VResult Ratings :=
  vApp (vApp (vApp (.ok Ratings.mk)
    (reqIntRange "food" 1 5 (m.lookup "food")))
    (reqIntRange "delivery" 1 5 (m.lookup "delivery")))
    (reqStr "review" (m.lookup "review"))

def Ratings.serialize (x : Ratings) : RawMap :=
  [("food", .int x.food),
   ("delivery", .int x.delivery),
   ("review", .str x.review)]

def Ratings.Valid (x : Ratings) : Prop :=
  1 ≤ x.food ∧ x.food ≤ 5 ∧ 1 ≤ x.delivery ∧ x.delivery ≤ 5

instance (x : Ratings) : Decidable x.Valid := by
  unfold Ratings.Valid; infer_instance

/-! ## Aggregate records -/

/-- Full order aggregate. The identity fields declare aliases equal to
their own names and carry no length constraints. -/
structure Order where
  orderId : String
  customerId : String
  customerName : String
  orderDate : Int
  status : OrderStatus
  restaurant : Restaurant
  items : List Item
  pricing : Pricing
  payment : Payment
  deliveryAddress : DeliveryAddress
  deliveryPartner : DeliveryPartner
  timeline : Timeline
  ratings : Ratings
deriving DecidableEq

def Order.construct (m : RawMap) : VResult Order :=
  vApp (vApp (vApp (vApp (vApp (vApp (vApp (vApp (vApp (vApp (vApp (vApp (vApp
    (.ok Order.mk)
    (reqStr "orderId" (m.lookup "orderId")))
    (reqStr "customerId" (m.lookup "customerId")))
    (reqStr "customerName" (m.lookup "customerName")))
    (reqDt "orderDate" (m.lookup "orderDate")))
    (reqEnum "status" OrderStatus.parse (m.lookup "status")))
    (nestedRec "restaurant" Restaurant.construct (m.lookup "restaurant")))
    (reqListRec "items" Item.construct (m.lookup "items")))
    (nestedRec "pricing" Pricing.construct (m.lookup "pricing")))
    (nestedRec "payment" Payment.construct (m.lookup "payment")))
    (nestedRec "deliveryAddress" DeliveryAddress.construct (m.lookup "deliveryAddress")))
    (nestedRec "deliveryPartner" DeliveryPartner.construct (m.lookup "deliveryPartner")))
    (nestedRec "timeline" Timeline.construct (m.lookup "timeline")))
    (nestedRec "ratings" Ratings.construct (m.lookup "ratings"))

def Order.serialize (x : Order) : RawMap :=
  [("orderId", .str x.orderId),
   ("customerId", .str x.customerId),
   ("customerName", .str x.customerName),
   ("orderDate", .dt x.orderDate),
   ("status", .str x.status.toStr),
   ("restaurant", .map x.restaurant.serialize),
   ("items", .list (x.items.map (fun it => Raw.map it.serialize))),
   ("pricing", .map x.pricing.serialize),
   ("payment", .map x.payment.serialize),
   ("deliveryAddress", .map x.deliveryAddress.serialize),
   ("deliveryPartner", .map x.deliveryPartner.serialize),
   ("timeline", .map x.timeline.serialize),
   ("ratings", .map x.ratings.serialize)]

def Order.Valid (x : Order) : Prop :=
  x.restaurant.Valid ∧ (∀ it ∈ x.items, it.Valid) ∧ x.pricing.Valid ∧
  x.deliveryAddress.Valid ∧ x.deliveryPartner.Valid ∧ x.ratings.Valid

instance (x : Order) : Decidable x.Valid := by
  unfold Order.Valid; infer_instance

/-- Summary of a recent past order: the `Order` shape minus the
`customerId` / `customerName` fields. -/
structure RecentOrder where
  orderId : String
  orderDate : Int
  status : OrderStatus
  restaurant : Restaurant
  items : List Item
  pricing : Pricing
  payment : Payment
  deliveryAddress : DeliveryAddress
  deliveryPartner : DeliveryPartner
  timeline : Timeline
  ratings : Ratings
deriving DecidableEq

def RecentOrder.construct (m : RawMap) : VResult RecentOrder :=
  vApp (vApp (vApp (vApp (vApp (vApp (vApp (vApp (vApp (vApp (vApp
    (.ok RecentOrder.mk)
    (reqStr "orderId" (m.lookup "orderId")))
    (reqDt "orderDate" (m.lookup "orderDate")))
    (reqEnum "status" OrderStatus.parse (m.lookup "status")))
    (nestedRec "restaurant" Restaurant.construct (m.lookup "restaurant")))
    (reqListRec "items" Item.construct (m.lookup "items")))
    (nestedRec "pricing" Pricing.construct (m.lookup "pricing")))
    (nestedRec "payment" Payment.construct (m.lookup "payment")))
    (nestedRec "deliveryAddress" DeliveryAddress.construct (m.lookup "deliveryAddress")))
    (nestedRec "deliveryPartner" DeliveryPartner.construct (m.lookup "deliveryPartner")))
    (nestedRec "timeline" Timeline.construct (m.lookup "timeline")))
    (nestedRec "ratings" Ratings.construct (m.lookup "ratings"))

def RecentOrder.serialize (x : RecentOrder) : RawMap :=
  [("orderId", .str x.orderId),
   ("orderDate", .dt x.orderDate),
   ("status", .str x.status.toStr),
   ("restaurant", .map x.restaurant.serialize),
   ("items", .list (x.items.map (fun it => Raw.map it.serialize))),
   ("pricing", .map x.pricing.serialize),
   ("payment", .map x.payment.serialize),
   ("deliveryAddress", .map x.deliveryAddress.serialize),
   ("deliveryPartner", .map x.deliveryPartner.serialize),
   ("timeline", .map x.timeline.serialize),
   ("ratings", .map x.ratings.serialize)]

def RecentOrder.Valid (x : RecentOrder) : Prop :=
  x.restaurant.Valid ∧ (∀ it ∈ x.items, it.Valid) ∧ x.pricing.Valid ∧
  x.deliveryAddress.Valid ∧ x.deliveryPartner.Valid ∧ x.ratings.Valid

instance (x : RecentOrder) : Decidable x.Valid := by
  unfold RecentOrder.Valid; infer_instance

/-! ## Customer-side records -/

/-- A customer's personal profile information. -/
structure Profile where
  name : String
  email : String
  phone : String
  memberSince : Int
deriving DecidableEq

def Profile.construct (m : RawMap) : VResult Profile :=
  vApp (vApp (vApp (vApp (.ok Profile.mk)
    (reqStr "name" (m.lookup "name")))
    (reqStr "email" (m.lookup "email")))
    (reqStr "phone" (m.lookup "phone")))
    (reqDate "memberSince" (m.lookup "memberSince"))

def Profile.serialize (x : Profile) : RawMap :=
  [("name", .str x.name),
   ("email", .str x.email),
   ("phone", .str x.phone),
   ("memberSince", .date x.memberSince)]

def Profile.Valid (_ : Profile) : Prop := True

instance (x : Profile) : Decidable x.Valid := by
  unfold Profile.Valid; infer_instance

/-- Summarized account statistics for a customer. -/
structure AccountStats where
  totalOrders : Int
  lifetimeValue : ℚ
  averageOrderValue : ℚ
  favoriteRestaurants : List String
  preferredCuisines : List String
  savedAddresses : Int
deriving DecidableEq

def AccountStats.construct (m : RawMap) : VResult AccountStats :=
  vApp (vApp (vApp (vApp (vApp (vApp (.ok AccountStats.mk)
    (reqIntGe "totalOrders" 0 (m.lookup "totalOrders")))
    (reqRatGe "lifetimeValue" 0 (m.lookup "lifetimeValue")))
    (reqRatGe "averageOrderValue" 0 (m.lookup "averageOrderValue")))
    (optListStr "favoriteRestaurants" (m.lookup "favoriteRestaurants")))
    (optListStr "preferredCuisines" (m.lookup "preferredCuisines")))
    (reqIntGe "savedAddresses" 0 (m.lookup "savedAddresses"))

def AccountStats.serialize (x : AccountStats) : RawMap :=
  [("totalOrders", .int x.totalOrders),
   ("lifetimeValue", .rat x.lifetimeValue),
   ("averageOrderValue", .rat x.averageOrderValue),
   ("favoriteRestaurants", .list (x.favoriteRestaurants.map Raw.str)),
   ("preferredCuisines", .list (x.preferredCuisines.map Raw.str)),
   ("savedAddresses", .int x.savedAddresses)]

def AccountStats.Valid (x : AccountStats) : Prop :=
  0 ≤ x.totalOrders ∧ 0 ≤ x.lifetimeValue ∧ 0 ≤ x.averageOrderValue ∧
  0 ≤ x.savedAddresses

instance (x : AccountStats) : Decidable x.Valid := by
  unfold AccountStats.Valid; infer_instance

/-- A user's personal food preferences. -/
structure Preferences where
  dietaryRestrictions : List String
  favoriteItems : List String
  avoidIngredients : List String
  spiceLevel : SpiceLevel
deriving DecidableEq

def Preferences.construct (m : RawMap) : VResult Preferences :=
  vApp (vApp (vApp (vApp (.ok Preferences.mk)
    (optListStr "dietaryRestrictions" (m.lookup "dietaryRestrictions")))
    (optListStr "favoriteItems" (m.lookup "favoriteItems")))
    (optListStr "avoidIngredients" (m.lookup "avoidIngredients")))
    (reqEnum "spiceLevel" SpiceLevel.parse (m.lookup "spiceLevel"))

def Preferences.serialize (x : Preferences) : RawMap :=
  [("dietaryRestrictions", .list (x.dietaryRestrictions.map Raw.str)),
   ("favoriteItems", .list (x.favoriteItems.map Raw.str)),
   ("avoidIngredients", .list (x.avoidIngredients.map Raw.str)),
   ("spiceLevel", .str x.spiceLevel.toStr)]

def Preferences.Valid (_ : Preferences) : Prop := True

instance (x : Preferences) : Decidable x.Valid := by
  unfold Preferences.Valid; infer_instance

/-- A coupon assigned to a customer. -/
structure Coupon where
  code : String
  description : String
  validUntil : Int
deriving DecidableEq

def Coupon.construct (m : RawMap) : VResult Coupon :=
  vApp (vApp (vApp (.ok Coupon.mk)
    (reqStr "code" (m.lookup "code")))
    (reqStr "description" (m.lookup "description")))
    (reqDate "validUntil" (m.lookup "validUntil"))

def Coupon.serialize (x : Coupon) : RawMap :=
  [("code", .str x.code),
   ("description", .str x.description),
   ("validUntil", .date x.validUntil)]

def Coupon.Valid (_ : Coupon) : Prop := True

instance (x : Coupon) : Decidable x.Valid := by
  unfold Coupon.Valid; infer_instance

/-- Loyalty reward details for a customer. -/
structure LoyaltyRewards where
  currentPoints : Int
  pointsToNextReward : Int
  couponsAvailable : List Coupon
deriving DecidableEq

def LoyaltyRewards.construct (m : RawMap) : VResult LoyaltyRewards :=
  vApp (vApp (vApp (.ok LoyaltyRewards.mk)
    (reqIntGe "currentPoints" 0 (m.lookup "currentPoints")))
    (reqIntGe "pointsToNextReward" 0 (m.lookup "pointsToNextReward")))
    (optListRec "couponsAvailable" Coupon.construct (m.lookup "couponsAvailable"))

def LoyaltyRewards.serialize (x : LoyaltyRewards) : RawMap :=
  [("currentPoints", .int x.currentPoints),
   ("pointsToNextReward", .int x.pointsToNextReward),
   ("couponsAvailable", .list (x.couponsAvailable.map (fun c => Raw.map c.serialize)))]

def LoyaltyRewards.Valid (x : LoyaltyRewards) : Prop :=
  0 ≤ x.currentPoints ∧ 0 ≤ x.pointsToNextReward

instance (x : LoyaltyRewards) : Decidable x.Valid := by
  unfold LoyaltyRewards.Valid; infer_instance

/-- Full customer aggregate. -/
structure Customer where
  customerId : String
  profile : Profile
  accountStats : AccountStats
  recentOrders : List RecentOrder
  preferences : Preferences
  loyaltyRewards : LoyaltyRewards
deriving DecidableEq

def Customer.construct (m : RawMap) : VResult Customer :=
  vApp (vApp (vApp (vApp (vApp (vApp (.ok Customer.mk)
    (reqStr "customerId" (m.lookup "customerId")))
    (nestedRec "profile" Profile.construct (m.lookup "profile")))
    (nestedRec "accountStats" AccountStats.construct (m.lookup "accountStats")))
    (optListRec "recentOrders" RecentOrder.construct (m.lookup "recentOrders")))
    (nestedRec "preferences" Preferences.construct (m.lookup "preferences")))
    (nestedRec "loyaltyRewards" LoyaltyRewards.construct (m.lookup "loyaltyRewards"))

def Customer.serialize (x : Customer) : RawMap :=
  [("customerId", .str x.customerId),
   ("profile", .map x.profile.serialize),
   ("accountStats", .map x.accountStats.serialize),
   ("recentOrders", .list (x.recentOrders.map (fun r => Raw.map r.serialize))),
   ("preferences", .map x.preferences.serialize),
   ("loyaltyRewards", .map x.loyaltyRewards.serialize)]

def Customer.Valid (x : Customer) : Prop :=
  x.accountStats.Valid ∧ (∀ r ∈ x.recentOrders, r.Valid) ∧ x.loyaltyRewards.Valid

instance (x : Customer) : Decidable x.Valid := by
  unfold Customer.Valid; infer_instance

/-! ## Concrete sample inputs used by counterexamples and witnesses -/

def sampleRestaurantMap (rating : ℚ) : RawMap :=
  [("restaurantId", .str "R1001"),
   ("name", .str "Dosa Hut"),
   ("location", .str "Indiranagar"),
   ("cuisine", .str "South Indian"),
   ("rating", .rat rating),
   ("deliveryTime", .str "30 min")]

def sampleRestaurant (rating : ℚ) : Restaurant :=
  ⟨some "R1001", "Dosa Hut", "Indiranagar", some "South Indian", rating, "30 min"⟩

def sampleItemMap (price : ℚ) : RawMap :=
  [("name", .str "Masala Dosa"),
   ("quantity", .int 2),
   ("price", .rat price),
   ("customizations", .list [.str "extra chutney"])]

def sampleItem (price : ℚ) : Item :=
  ⟨"Masala Dosa", 2, price, ["extra chutney"]⟩

def samplePricingMap : RawMap :=
  [("itemTotal", .rat 240),
   ("deliveryFee", .rat 30),
   ("platformFee", .rat 5),
   ("gst", .rat 12),
   ("discount", .rat 0),
   ("totalAmount", .rat 287)]

def samplePricing : Pricing := ⟨240, 30, 5, 12, 0, 287⟩

def samplePaymentMap : RawMap :=
  [("method", .str "UPI"),
   ("transactionId", .str "TXN-778899"),
   ("status", .str "success")]

def samplePayment : Payment := ⟨"UPI", "TXN-778899", "success"⟩

def sampleAddressMap (pincode : String) : RawMap :=
  [("label", .str "Home"),
   ("address", .str "12 MG Road"),
   ("city", .str "Bengaluru"),
   ("pincode", .str pincode)]

def sampleAddress (pincode : String) : DeliveryAddress :=
  ⟨"Home", "12 MG Road", "Bengaluru", pincode⟩

def samplePartnerMap (rating : ℚ) : RawMap :=
  [("name", .str "Ravi"),
   ("rating", .rat rating),
   ("phone", .str "9876543210")]

def samplePartner (rating : ℚ) : DeliveryPartner := ⟨"Ravi", rating, "9876543210"⟩

def sampleTimelineMap : RawMap :=
  [("orderPlaced", .dt 100),
   ("restaurantAccepted", .dt 110),
   ("foodReady", .dt 130),
   ("outForDelivery", .dt 140),
   ("delivered", .dt 170)]

def sampleTimeline : Timeline := ⟨100, 110, 130, 140, 170⟩

def sampleRatingsMap : RawMap :=
  [("food", .int 5),
   ("delivery", .int 4),
   ("review", .str "great")]

def sampleRatings : Ratings := ⟨5, 4, "great"⟩

/-- A raw `Order` mapping, fully valid except where the parameters say
otherwise (identity strings and the price of the single item). -/
def sampleOrderMap (oid cid cname : String) (price : ℚ) : RawMap :=
  [("orderId", .str oid),
   ("customerId", .str cid),
   ("customerName", .str cname),
   ("orderDate", .dt 100),
   ("status", .str "delivered"),
   ("restaurant", .map (sampleRestaurantMap 4)),
   ("items", .list [.map (sampleItemMap price)]),
   ("pricing", .map samplePricingMap),
   ("payment", .map samplePaymentMap),
   ("deliveryAddress", .map (sampleAddressMap "560001")),
   ("deliveryPartner", .map (samplePartnerMap 4)),
   ("timeline", .map sampleTimelineMap),
   ("ratings", .map sampleRatingsMap)]

/-- The `Order` value the sample mapping constructs to when it is valid. -/
def sampleOrder (oid cid cname : String) (price : ℚ) : Order :=
  ⟨oid, cid, cname, 100, .delivered, sampleRestaurant 4, [sampleItem price],
   samplePricing, samplePayment, sampleAddress "560001", samplePartner 4,
   sampleTimeline, sampleRatings⟩

example : Order.construct (sampleOrderMap "ORD-1" "C-1" "Asha" 120) =
    .ok (sampleOrder "ORD-1" "C-1" "Asha" 120) := by rfl

/-! ## Round-trip lemmas: construct after serialize -/

theorem orderStatus_parse_toStr (v : OrderStatus) :
    OrderStatus.parse v.toStr = some v := by cases v <;> rfl

theorem spiceLevel_parse_toStr (v : SpiceLevel) :
    SpiceLevel.parse v.toStr = some v := by cases v <;> rfl

theorem optStr_optStrRaw (name : String) (v : Option String) :
    optStr name (some (optStrRaw v)) = .ok v := by cases v <;> rfl

theorem strElems_map (name : String) (xs : List String) :
    ∀ i, strElems name (xs.map Raw.str) i = .ok xs := by
  induction xs with
  | nil => intro i; rfl
  | cons a as ih => intro i; simp [strElems, vApp, ih]

theorem recElems_map {α : Type} (name : String) (child : RawMap → VResult α)
    (ser : α → RawMap) (xs : List α) (h : ∀ x ∈ xs, child (ser x) = .ok x) :
    ∀ i, recElems name child (xs.map (fun x => Raw.map (ser x))) i = .ok xs := by
  induction xs with
  | nil => intro i; rfl
  | cons a as ih =>
      intro i
      simp [recElems, vApp, h a (by simp), ih (fun x hx => h x (by simp [hx]))]

theorem orderModel_roundtrip (x : OrderModel) (h : x.Valid) :
    OrderModel.construct (OrderModel.serialize x) = .ok x := by
  obtain ⟨h1, h2, h3⟩ := h
  simp [OrderModel.construct, OrderModel.serialize, RawMap.lookup, reqStrMin,
    vApp, h1, h2, h3]

theorem restaurant_roundtrip (x : Restaurant) (h : x.Valid) :
    Restaurant.construct (Restaurant.serialize x) = .ok x := by
  obtain ⟨h1, h2⟩ := h
  simp [Restaurant.construct, Restaurant.serialize, RawMap.lookup, reqStr,
    reqRatRange, Raw.toRat, optStr_optStrRaw, vApp, h1, h2]

theorem item_roundtrip (x : Item) (h : x.Valid) :
    Item.construct (Item.serialize x) = .ok x := by
  obtain ⟨h1, h2⟩ := h
  simp [Item.construct, Item.serialize, RawMap.lookup, reqStr, reqIntGe, reqRatGe,
    Raw.toRat, optListStr, strElems_map, vApp, h1, h2]

theorem pricing_roundtrip (x : Pricing) (h : x.Valid) :
    Pricing.construct (Pricing.serialize x) = .ok x := by
  obtain ⟨h1, h2, h3, h4, h5, h6⟩ := h
  simp [Pricing.construct, Pricing.serialize, RawMap.lookup, reqRatGe, Raw.toRat,
    vApp, h1, h2, h3, h4, h5, h6]

theorem payment_roundtrip (x : Payment) :
    Payment.construct (Payment.serialize x) = .ok x := by rfl

theorem deliveryAddress_roundtrip (x : DeliveryAddress) (h : x.Valid) :
    DeliveryAddress.construct (DeliveryAddress.serialize x) = .ok x := by
  have h6 : x.pincode.length = 6 := h
  simp [DeliveryAddress.construct, DeliveryAddress.serialize, RawMap.lookup,
    reqStr, reqStrLen, vApp, h6]

theorem deliveryPartner_roundtrip (x : DeliveryPartner) (h : x.Valid) :
    DeliveryPartner.construct (DeliveryPartner.serialize x) = .ok x := by
  obtain ⟨h1, h2⟩ := h
  simp [DeliveryPartner.construct, DeliveryPartner.serialize, RawMap.lookup,
    reqStr, reqRatRange, Raw.toRat, vApp, h1, h2]

theorem timeline_roundtrip (x : Timeline) :
    Timeline.construct (Timeline.serialize x) = .ok x := by rfl

theorem ratings_roundtrip (x : Ratings) (h : x.Valid) :
    Ratings.construct (Ratings.serialize x) = .ok x := by
  obtain ⟨h1, h2, h3, h4⟩ := h
  simp [Ratings.construct, Ratings.serialize, RawMap.lookup, reqStr, reqIntRange,
    vApp, h1, h2, h3, h4]

theorem order_roundtrip (x : Order) (h : x.Valid) :
    Order.construct (Order.serialize x) = .ok x := by
  obtain ⟨hr, hi, hp, ha, hd, hg⟩ := h
  simp [Order.construct, Order.serialize, RawMap.lookup, reqStr, reqDt, reqEnum,
    orderStatus_parse_toStr, nestedRec, reqListRec, vApp,
    restaurant_roundtrip x.restaurant hr,
    recElems_map "items" Item.construct Item.serialize x.items
      (fun it hit => item_roundtrip it (hi it hit)),
    pricing_roundtrip x.pricing hp,
    payment_roundtrip x.payment,
    deliveryAddress_roundtrip x.deliveryAddress ha,
    deliveryPartner_roundtrip x.deliveryPartner hd,
    timeline_roundtrip x.timeline,
    ratings_roundtrip x.ratings hg]

theorem recentOrder_roundtrip (x : RecentOrder) (h : x.Valid) :
    RecentOrder.construct (RecentOrder.serialize x) = .ok x := by
  obtain ⟨hr, hi, hp, ha, hd, hg⟩ := h
  simp [RecentOrder.construct, RecentOrder.serialize, RawMap.lookup, reqStr,
    reqDt, reqEnum, orderStatus_parse_toStr, nestedRec, reqListRec, vApp,
    restaurant_roundtrip x.restaurant hr,
    recElems_map "items" Item.construct Item.serialize x.items
      (fun it hit => item_roundtrip it (hi it hit)),
    pricing_roundtrip x.pricing hp,
    payment_roundtrip x.payment,
    deliveryAddress_roundtrip x.deliveryAddress ha,
    deliveryPartner_roundtrip x.deliveryPartner hd,
    timeline_roundtrip x.timeline,
    ratings_roundtrip x.ratings hg]

theorem profile_roundtrip (x : Profile) :
    Profile.construct (Profile.serialize x) = .ok x := by rfl

theorem accountStats_roundtrip (x : AccountStats) (h : x.Valid) :
    AccountStats.construct (AccountStats.serialize x) = .ok x := by
  obtain ⟨h1, h2, h3, h4⟩ := h
  simp [AccountStats.construct, AccountStats.serialize, RawMap.lookup, reqIntGe,
    reqRatGe, Raw.toRat, optListStr, strElems_map, vApp, h1, h2, h3, h4]

theorem preferences_roundtrip (x : Preferences) :
    Preferences.construct (Preferences.serialize x) = .ok x := by
  simp [Preferences.construct, Preferences.serialize, RawMap.lookup, optListStr,
    strElems_map, reqEnum, spiceLevel_parse_toStr, vApp]

theorem coupon_roundtrip (x : Coupon) :
    Coupon.construct (Coupon.serialize x) = .ok x := by rfl

theorem loyaltyRewards_roundtrip (x : LoyaltyRewards) (h : x.Valid) :
    LoyaltyRewards.construct (LoyaltyRewards.serialize x) = .ok x := by
  obtain ⟨h1, h2⟩ := h
  simp [LoyaltyRewards.construct, LoyaltyRewards.serialize, RawMap.lookup,
    reqIntGe, optListRec, vApp, h1, h2,
    recElems_map "couponsAvailable" Coupon.construct Coupon.serialize
      x.couponsAvailable (fun c _ => coupon_roundtrip c)]

theorem customer_roundtrip (x : Customer) (h : x.Valid) :
    Customer.construct (Customer.serialize x) = .ok x := by
  obtain ⟨hs, hr, hl⟩ := h
  simp [Customer.construct, Customer.serialize, RawMap.lookup, reqStr, nestedRec,
    optListRec, vApp,
    profile_roundtrip x.profile,
    accountStats_roundtrip x.accountStats hs,
    recElems_map "recentOrders" RecentOrder.construct RecentOrder.serialize
      x.recentOrders (fun r hrr => recentOrder_roundtrip r (hr r hrr)),
    preferences_roundtrip x.preferences,
    loyaltyRewards_roundtrip x.loyaltyRewards hl]

/-! ## Structural lemmas on lookups and error lists -/

theorem RawMap.lookup_cons_ne (k name : String) (v : Raw) (m : RawMap)
    (h : k ≠ name) : RawMap.lookup ((k, v) :: m) name = m.lookup name := by
  simp [RawMap.lookup, h]

theorem RawMap.erase_lookup (m : RawMap) (k name : String) (h : name ≠ k) :
    (m.erase k).lookup name = m.lookup name := by
  induction m with
  | nil => rfl
  | cons p rest ih =>
      obtain ⟨a, b⟩ := p
      by_cases hak : a = k
      · subst hak
        have han : a ≠ name := fun hh => h hh.symm
        simp [RawMap.erase, RawMap.lookup, han, ih]
      · by_cases han : a = name <;>
          simp [RawMap.erase, RawMap.lookup, hak, han, ih, h]

theorem eq_error_errsOf {α : Type} (x : VResult α) (h : errsOf x ≠ []) :
    x = .error (errsOf x) := by
  cases x with
  | ok a => simp [errsOf] at h
  | error e => rfl

theorem reqStrMin_ok_length (name : String) (lo : Nat) (o : Option Raw)
    (s : String) (h : reqStrMin name lo o = .ok s) : lo ≤ s.length := by
  unfold reqStrMin at h
  split at h
  · simp at h
  · split at h <;> simp_all
  · simp at h

theorem reqStr_error_ne (name : String) (o : Option Raw) (e : List VErr)
    (h : reqStr name o = .error e) : e ≠ [] := by
  intro hc
  subst hc
  unfold reqStr at h
  split at h <;> simp_all

theorem reqIntGe_error_ne (name : String) (lo : Int) (o : Option Raw)
    (e : List VErr) (h : reqIntGe name lo o = .error e) : e ≠ [] := by
  intro hc
  subst hc
  unfold reqIntGe at h
  split at h
  · simp_all
  · split at h <;> simp_all
  · simp_all

theorem reqRatGe_error_ne (name : String) (lo : ℚ) (o : Option Raw)
    (e : List VErr) (h : reqRatGe name lo o = .error e) : e ≠ [] := by
  intro hc
  subst hc
  unfold reqRatGe at h
  split at h
  · simp_all
  · split at h
    · split at h <;> simp_all
    · simp_all

theorem reqEnum_error_ne {α : Type} (name : String) (parse : String → Option α)
    (o : Option Raw) (e : List VErr) (h : reqEnum name parse o = .error e) :
    e ≠ [] := by
  intro hc
  subst hc
  unfold reqEnum at h
  split at h
  · simp_all
  · split at h <;> simp_all
  · simp_all

/-! ## Error-list decomposition of the aggregate constructors -/

theorem orderModel_errs_construct (m : RawMap) :
    errsOf (OrderModel.construct m) =
      errsOf (reqStrMin "orderId" 5 (m.lookup "orderId")) ++
      errsOf (reqStrMin "customerId" 5 (m.lookup "customerId")) ++
      errsOf (reqStrMin "customerName" 5 (m.lookup "customerName")) := by
  simp only [OrderModel.construct, errsOf_vApp]
  simp [errsOf]

theorem item_errs_construct (m : RawMap) :
    errsOf (Item.construct m) =
      errsOf (reqStr "name" (m.lookup "name")) ++
      errsOf (reqIntGe "quantity" 1 (m.lookup "quantity")) ++
      errsOf (reqRatGe "price" 0 (m.lookup "price")) ++
      errsOf (optListStr "customizations" (m.lookup "customizations")) := by
  simp only [Item.construct, errsOf_vApp]
  simp [errsOf]

theorem order_errs_construct (m : RawMap) :
    errsOf (Order.construct m) =
      errsOf (reqStr "orderId" (m.lookup "orderId")) ++
      errsOf (reqStr "customerId" (m.lookup "customerId")) ++
      errsOf (reqStr "customerName" (m.lookup "customerName")) ++
      errsOf (reqDt "orderDate" (m.lookup "orderDate")) ++
      errsOf (reqEnum "status" OrderStatus.parse (m.lookup "status")) ++
      errsOf (nestedRec "restaurant" Restaurant.construct (m.lookup "restaurant")) ++
      errsOf (reqListRec "items" Item.construct (m.lookup "items")) ++
      errsOf (nestedRec "pricing" Pricing.construct (m.lookup "pricing")) ++
      errsOf (nestedRec "payment" Payment.construct (m.lookup "payment")) ++
      errsOf (nestedRec "deliveryAddress" DeliveryAddress.construct (m.lookup "deliveryAddress")) ++
      errsOf (nestedRec "deliveryPartner" DeliveryPartner.construct (m.lookup "deliveryPartner")) ++
      errsOf (nestedRec "timeline" Timeline.construct (m.lookup "timeline")) ++
      errsOf (nestedRec "ratings" Ratings.construct (m.lookup "ratings")) := by
  simp only [Order.construct, errsOf_vApp]
  simp [errsOf]

theorem recentOrder_errs_construct (m : RawMap) :
    errsOf (RecentOrder.construct m) =
      errsOf (reqStr "orderId" (m.lookup "orderId")) ++
      errsOf (reqDt "orderDate" (m.lookup "orderDate")) ++
      errsOf (reqEnum "status" OrderStatus.parse (m.lookup "status")) ++
      errsOf (nestedRec "restaurant" Restaurant.construct (m.lookup "restaurant")) ++
      errsOf (reqListRec "items" Item.construct (m.lookup "items")) ++
      errsOf (nestedRec "pricing" Pricing.construct (m.lookup "pricing")) ++
      errsOf (nestedRec "payment" Payment.construct (m.lookup "payment")) ++
      errsOf (nestedRec "deliveryAddress" DeliveryAddress.construct (m.lookup "deliveryAddress")) ++
      errsOf (nestedRec "deliveryPartner" DeliveryPartner.construct (m.lookup "deliveryPartner")) ++
      errsOf (nestedRec "timeline" Timeline.construct (m.lookup "timeline")) ++
      errsOf (nestedRec "ratings" Ratings.construct (m.lookup "ratings")) := by
  simp only [RecentOrder.construct, errsOf_vApp]
  simp [errsOf]

/-! ## Further concrete sample data -/

def sampleItemMapNoCust : RawMap :=
  [("name", .str "Masala Dosa"),
   ("quantity", .int 2),
   ("price", .rat 120)]

def sampleOrderMapNoItems : RawMap :=
  (sampleOrderMap "ORD-1001" "CUST-100" "Asha Rao" 120).erase "items"

def sampleProfileMap : RawMap :=
  [("name", .str "Asha Rao"),
   ("email", .str "asha@example.com"),
   ("phone", .str "9876500000"),
   ("memberSince", .date 20200101)]

def sampleProfile : Profile :=
  ⟨"Asha Rao", "asha@example.com", "9876500000", 20200101⟩

def sampleStatsMap : RawMap :=
  [("totalOrders", .int 42),
   ("lifetimeValue", .rat 12000),
   ("averageOrderValue", .rat 285),
   ("favoriteRestaurants", .list [.str "Dosa Hut"]),
   ("preferredCuisines", .list [.str "South Indian"]),
   ("savedAddresses", .int 2)]

def sampleStats : AccountStats :=
  ⟨42, 12000, 285, ["Dosa Hut"], ["South Indian"], 2⟩

def samplePreferencesMap : RawMap :=
  [("dietaryRestrictions", .list []),
   ("favoriteItems", .list [.str "Masala Dosa"]),
   ("avoidIngredients", .list []),
   ("spiceLevel", .str "Medium")]

def samplePreferences : Preferences := ⟨[], ["Masala Dosa"], [], .Medium⟩

def sampleCouponMap : RawMap :=
  [("code", .str "SAVE50"),
   ("description", .str "50 off"),
   ("validUntil", .date 20260101)]

def sampleCoupon : Coupon := ⟨"SAVE50", "50 off", 20260101⟩

def sampleLoyaltyMap : RawMap :=
  [("currentPoints", .int 120),
   ("pointsToNextReward", .int 80),
   ("couponsAvailable", .list [.map sampleCouponMap])]

def sampleLoyalty : LoyaltyRewards := ⟨120, 80, [sampleCoupon]⟩

def sampleRecentOrderMap : RawMap :=
  [("orderId", .str "ORD-0999"),
   ("orderDate", .dt 90),
   ("status", .str "delivered"),
   ("restaurant", .map (sampleRestaurantMap 4)),
   ("items", .list [.map (sampleItemMap 120)]),
   ("pricing", .map samplePricingMap),
   ("payment", .map samplePaymentMap),
   ("deliveryAddress", .map (sampleAddressMap "560001")),
   ("deliveryPartner", .map (samplePartnerMap 4)),
   ("timeline", .map sampleTimelineMap),
   ("ratings", .map sampleRatingsMap)]

def sampleRecentOrder : RecentOrder :=
  ⟨"ORD-0999", 90, .delivered, sampleRestaurant 4, [sampleItem 120],
   samplePricing, samplePayment, sampleAddress "560001", samplePartner 4,
   sampleTimeline, sampleRatings⟩

def sampleCustomerMap : RawMap :=
  [("customerId", .str "CUST-100"),
   ("profile", .map sampleProfileMap),
   ("accountStats", .map sampleStatsMap),
   ("recentOrders", .list [.map sampleRecentOrderMap]),
   ("preferences", .map samplePreferencesMap),
   ("loyaltyRewards", .map sampleLoyaltyMap)]

def sampleCustomer : Customer :=
  ⟨"CUST-100", sampleProfile, sampleStats, [sampleRecentOrder],
   samplePreferences, sampleLoyalty⟩

/-- The rational 5.0001, just above the upper rating bound. -/
def ratAboveFive : ℚ := ⟨50001, 10000, by norm_num, by norm_num⟩

/-- The rational -0.0001, just below the lower rating bound. -/
def ratBelowZero : ℚ := ⟨-1, 10000, by norm_num, by norm_num⟩

example : Customer.construct sampleCustomerMap = .ok sampleCustomer := by rfl

/-! ## Construction inversion and introduction lemmas -/

theorem error_mem_of_errsOf {α : Type} (x : VResult α) (e : VErr)
    (h : e ∈ errsOf x) : ∃ es, x = .error es ∧ e ∈ es := by
  have hne : errsOf x ≠ [] := by
    intro hc; rw [hc] at h; simp at h
  exact ⟨_, eq_error_errsOf _ hne, h⟩

theorem order_construct_ok_elim {m : RawMap} {o : Order}
    (h : Order.construct m = .ok o) :
    reqStr "orderId" (m.lookup "orderId") = .ok o.orderId ∧
    reqStr "customerId" (m.lookup "customerId") = .ok o.customerId ∧
    reqStr "customerName" (m.lookup "customerName") = .ok o.customerName ∧
    reqDt "orderDate" (m.lookup "orderDate") = .ok o.orderDate ∧
    reqEnum "status" OrderStatus.parse (m.lookup "status") = .ok o.status ∧
    nestedRec "restaurant" Restaurant.construct (m.lookup "restaurant") = .ok o.restaurant ∧
    reqListRec "items" Item.construct (m.lookup "items") = .ok o.items ∧
    nestedRec "pricing" Pricing.construct (m.lookup "pricing") = .ok o.pricing ∧
    nestedRec "payment" Payment.construct (m.lookup "payment") = .ok o.payment ∧
    nestedRec "deliveryAddress" DeliveryAddress.construct (m.lookup "deliveryAddress") = .ok o.deliveryAddress ∧
    nestedRec "deliveryPartner" DeliveryPartner.construct (m.lookup "deliveryPartner") = .ok o.deliveryPartner ∧
    nestedRec "timeline" Timeline.construct (m.lookup "timeline") = .ok o.timeline ∧
    nestedRec "ratings" Ratings.construct (m.lookup "ratings") = .ok o.ratings := by
  unfold Order.construct at h
  rw [vApp_ok_iff] at h
  obtain ⟨f, a13, h, h13, rfl⟩ := h
  rw [vApp_ok_iff] at h
  obtain ⟨f, a12, h, h12, rfl⟩ := h
  rw [vApp_ok_iff] at h
  obtain ⟨f, a11, h, h11, rfl⟩ := h
  rw [vApp_ok_iff] at h
  obtain ⟨f, a10, h, h10, rfl⟩ := h
  rw [vApp_ok_iff] at h
  obtain ⟨f, a9, h, h9, rfl⟩ := h
  rw [vApp_ok_iff] at h
  obtain ⟨f, a8, h, h8, rfl⟩ := h
  rw [vApp_ok_iff] at h
  obtain ⟨f, a7, h, h7, rfl⟩ := h
  rw [vApp_ok_iff] at h
  obtain ⟨f, a6, h, h6, rfl⟩ := h
  rw [vApp_ok_iff] at h
  obtain ⟨f, a5, h, h5, rfl⟩ := h
  rw [vApp_ok_iff] at h
  obtain ⟨f, a4, h, h4, rfl⟩ := h
  rw [vApp_ok_iff] at h
  obtain ⟨f, a3, h, h3, rfl⟩ := h
  rw [vApp_ok_iff] at h
  obtain ⟨f, a2, h, h2, rfl⟩ := h
  rw [vApp_ok_iff] at h
  obtain ⟨f, a1, h, h1, rfl⟩ := h
  injection h with h
  subst h
  exact ⟨h1, h2, h3, h4, h5, h6, h7, h8, h9, h10, h11, h12, h13⟩

theorem order_construct_ok_intro {m : RawMap} {o : Order}
    (h1 : reqStr "orderId" (m.lookup "orderId") = .ok o.orderId)
    (h2 : reqStr "customerId" (m.lookup "customerId") = .ok o.customerId)
    (h3 : reqStr "customerName" (m.lookup "customerName") = .ok o.customerName)
    (h4 : reqDt "orderDate" (m.lookup "orderDate") = .ok o.orderDate)
    (h5 : reqEnum "status" OrderStatus.parse (m.lookup "status") = .ok o.status)
    (h6 : nestedRec "restaurant" Restaurant.construct (m.lookup "restaurant") = .ok o.restaurant)
    (h7 : reqListRec "items" Item.construct (m.lookup "items") = .ok o.items)
    (h8 : nestedRec "pricing" Pricing.construct (m.lookup "pricing") = .ok o.pricing)
    (h9 : nestedRec "payment" Payment.construct (m.lookup "payment") = .ok o.payment)
    (h10 : nestedRec "deliveryAddress" DeliveryAddress.construct (m.lookup "deliveryAddress") = .ok o.deliveryAddress)
    (h11 : nestedRec "deliveryPartner" DeliveryPartner.construct (m.lookup "deliveryPartner") = .ok o.deliveryPartner)
    (h12 : nestedRec "timeline" Timeline.construct (m.lookup "timeline") = .ok o.timeline)
    (h13 : nestedRec "ratings" Ratings.construct (m.lookup "ratings") = .ok o.ratings) :
    Order.construct m = .ok o := by
  unfold Order.construct
  rw [h1, h2, h3, h4, h5, h6, h7, h8, h9, h10, h11, h12, h13]
  rfl

theorem recentOrder_construct_ok_elim {m : RawMap} {r : RecentOrder}
    (h : RecentOrder.construct m = .ok r) :
    reqStr "orderId" (m.lookup "orderId") = .ok r.orderId ∧
    reqDt "orderDate" (m.lookup "orderDate") = .ok r.orderDate ∧
    reqEnum "status" OrderStatus.parse (m.lookup "status") = .ok r.status ∧
    nestedRec "restaurant" Restaurant.construct (m.lookup "restaurant") = .ok r.restaurant ∧
    reqListRec "items" Item.construct (m.lookup "items") = .ok r.items ∧
    nestedRec "pricing" Pricing.construct (m.lookup "pricing") = .ok r.pricing ∧
    nestedRec "payment" Payment.construct (m.lookup "payment") = .ok r.payment ∧
    nestedRec "deliveryAddress" DeliveryAddress.construct (m.lookup "deliveryAddress") = .ok r.deliveryAddress ∧
    nestedRec "deliveryPartner" DeliveryPartner.construct (m.lookup "deliveryPartner") = .ok r.deliveryPartner ∧
    nestedRec "timeline" Timeline.construct (m.lookup "timeline") = .ok r.timeline ∧
    nestedRec "ratings" Ratings.construct (m.lookup "ratings") = .ok r.ratings := by
  unfold RecentOrder.construct at h
  rw [vApp_ok_iff] at h
  obtain ⟨f, a11, h, h11, rfl⟩ := h
  rw [vApp_ok_iff] at h
  obtain ⟨f, a10, h, h10, rfl⟩ := h
  rw [vApp_ok_iff] at h
  obtain ⟨f, a9, h, h9, rfl⟩ := h
  rw [vApp_ok_iff] at h
  obtain ⟨f, a8, h, h8, rfl⟩ := h
  rw [vApp_ok_iff] at h
  obtain ⟨f, a7, h, h7, rfl⟩ := h
  rw [vApp_ok_iff] at h
  obtain ⟨f, a6, h, h6, rfl⟩ := h
  rw [vApp_ok_iff] at h
  obtain ⟨f, a5, h, h5, rfl⟩ := h
  rw [vApp_ok_iff] at h
  obtain ⟨f, a4, h, h4, rfl⟩ := h
  rw [vApp_ok_iff] at h
  obtain ⟨f, a3, h, h3, rfl⟩ := h
  rw [vApp_ok_iff] at h
  obtain ⟨f, a2, h, h2, rfl⟩ := h
  rw [vApp_ok_iff] at h
  obtain ⟨f, a1, h, h1, rfl⟩ := h
  injection h with h
  subst h
  exact ⟨h1, h2, h3, h4, h5, h6, h7, h8, h9, h10, h11⟩

theorem recentOrder_construct_ok_intro {m : RawMap} {r : RecentOrder}
    (h1 : reqStr "orderId" (m.lookup "orderId") = .ok r.orderId)
    (h2 : reqDt "orderDate" (m.lookup "orderDate") = .ok r.orderDate)
    (h3 : reqEnum "status" OrderStatus.parse (m.lookup "status") = .ok r.status)
    (h4 : nestedRec "restaurant" Restaurant.construct (m.lookup "restaurant") = .ok r.restaurant)
    (h5 : reqListRec "items" Item.construct (m.lookup "items") = .ok r.items)
    (h6 : nestedRec "pricing" Pricing.construct (m.lookup "pricing") = .ok r.pricing)
    (h7 : nestedRec "payment" Payment.construct (m.lookup "payment") = .ok r.payment)
    (h8 : nestedRec "deliveryAddress" DeliveryAddress.construct (m.lookup "deliveryAddress") = .ok r.deliveryAddress)
    (h9 : nestedRec "deliveryPartner" DeliveryPartner.construct (m.lookup "deliveryPartner") = .ok r.deliveryPartner)
    (h10 : nestedRec "timeline" Timeline.construct (m.lookup "timeline") = .ok r.timeline)
    (h11 : nestedRec "ratings" Ratings.construct (m.lookup "ratings") = .ok r.ratings) :
    RecentOrder.construct m = .ok r := by
  unfold RecentOrder.construct
  rw [h1, h2, h3, h4, h5, h6, h7, h8, h9, h10, h11]
  rfl

/-! ## Claim theorems -/

/-- Claim C5: constructing an Order whose items sequence has, at index 0, an
element with price = -1 fails as a whole (no Order value is produced) and the
failure report is a single nested validation failure located at
items[0].price wrapping a constraint violation. -/
theorem order_item_price_nested_failure :
    Order.construct (sampleOrderMap "ORD-1001" "CUST-100" "Asha Rao" (-1)) =
      .error [.nestedValidationFailure [.field "items", .idx 0]
        [.constraintViolation [.field "price"] "ge"]] := by rfl

/-- Claim C6: OrderStatus and SpiceLevel are closed sets with exactly the
listed members; parsing a raw string succeeds iff it matches a member
case-sensitively, and a non-member string fails with an InvalidEnumValue
error; "delivered" validates while "Delivered" fails. -/
theorem enum_closed_sets :
    (∀ s : String, (OrderStatus.parse s).isSome ↔
      s = "pending" ∨ s = "preparing" ∨ s = "out_for_delivery" ∨
      s = "delivered" ∨ s = "cancelled") ∧
    (∀ s : String, (SpiceLevel.parse s).isSome ↔
      s = "Mild" ∨ s = "Medium" ∨ s = "Hot") ∧
    OrderStatus.parse "delivered" = some .delivered ∧
    OrderStatus.parse "Delivered" = none ∧
    reqEnum "status" OrderStatus.parse (some (.str "Delivered")) =
      .error [.invalidEnumValue [.field "status"]] ∧
    (∀ name s : String, OrderStatus.parse s = none →
      reqEnum name OrderStatus.parse (some (.str s)) =
        .error [.invalidEnumValue [.field name]]) ∧
    (∀ name s : String, SpiceLevel.parse s = none →
      reqEnum name SpiceLevel.parse (some (.str s)) =
        .error [.invalidEnumValue [.field name]]) := by
  refine ⟨?_, ?_, by rfl, by rfl, by rfl, ?_, ?_⟩
  · intro s
    unfold OrderStatus.parse
    split_ifs <;> simp_all
  · intro s
    unfold SpiceLevel.parse
    split_ifs <;> simp_all
  · intro name s h
    simp [reqEnum, h]
  · intro name s h
    simp [reqEnum, h]

/-- Witness for C6 at concrete inputs. -/
theorem enum_closed_sets_witness :
    reqEnum "status" OrderStatus.parse (some (.str "out for delivery")) =
      .error [.invalidEnumValue [.field "status"]] ∧
    reqEnum "spiceLevel" SpiceLevel.parse (some (.str "mild")) =
      .error [.invalidEnumValue [.field "spiceLevel"]] :=
  ⟨enum_closed_sets.2.2.2.2.2.1 "status" "out for delivery" (by rfl),
   enum_closed_sets.2.2.2.2.2.2 "spiceLevel" "mild" (by rfl)⟩

/-- Claim C7: a pincode validates iff it has exactly 6 characters; only the
character count is checked (no digit requirement): "123456" and "abcdef"
validate, "12345" and "1234567" fail. -/
theorem pincode_exact_length :
    (∀ s : String, reqStrLen "pincode" 6 6 (some (.str s)) = .ok s ↔
      s.length = 6) ∧
    (∀ s : String, s.length = 6 →
      DeliveryAddress.construct (sampleAddressMap s) = .ok (sampleAddress s)) ∧
    DeliveryAddress.construct (sampleAddressMap "123456") =
      .ok (sampleAddress "123456") ∧
    DeliveryAddress.construct (sampleAddressMap "abcdef") =
      .ok (sampleAddress "abcdef") ∧
    DeliveryAddress.construct (sampleAddressMap "12345") =
      .error [.constraintViolation [.field "pincode"] "min_length"] ∧
    DeliveryAddress.construct (sampleAddressMap "1234567") =
      .error [.constraintViolation [.field "pincode"] "max_length"] := by
  refine ⟨?_, ?_, by rfl, by rfl, by rfl, by rfl⟩
  · intro s
    simp only [reqStrLen]
    split_ifs <;> simp <;> omega
  · intro s h
    simp [DeliveryAddress.construct, sampleAddressMap, sampleAddress,
      RawMap.lookup, reqStr, reqStrLen, h, vApp]

/-- Witness for C7 at a concrete input. -/
theorem pincode_exact_length_witness :
    (reqStrLen "pincode" 6 6 (some (.str "560001")) = .ok "560001" ↔
      ("560001" : String).length = 6) ∧
    DeliveryAddress.construct (sampleAddressMap "999999") =
      .ok (sampleAddress "999999") :=
  ⟨pincode_exact_length.1 "560001",
   pincode_exact_length.2.1 "999999" (by decide)⟩

/-- Claim C8: rating fields of Restaurant and DeliveryPartner accept exactly
the inclusive interval [0,5]: 0 and 5 validate, any value below 0 (such as
-0.0001) or above 5 (such as 5.0001) fails with a ConstraintViolation. -/
theorem rating_bounds_inclusive :
    (∀ (name : String) (q : ℚ), 0 ≤ q ∧ q ≤ 5 →
      reqRatRange name 0 5 (some (.rat q)) = .ok q) ∧
    (∀ (name : String) (q : ℚ), q < 0 →
      reqRatRange name 0 5 (some (.rat q)) =
        .error [.constraintViolation [.field name] "ge"]) ∧
    (∀ (name : String) (q : ℚ), 5 < q →
      reqRatRange name 0 5 (some (.rat q)) =
        .error [.constraintViolation [.field name] "le"]) ∧
    Restaurant.construct (sampleRestaurantMap 0) = .ok (sampleRestaurant 0) ∧
    Restaurant.construct (sampleRestaurantMap 5) = .ok (sampleRestaurant 5) ∧
    Restaurant.construct (sampleRestaurantMap ratBelowZero) =
      .error [.constraintViolation [.field "rating"] "ge"] ∧
    Restaurant.construct (sampleRestaurantMap ratAboveFive) =
      .error [.constraintViolation [.field "rating"] "le"] ∧
    DeliveryPartner.construct (samplePartnerMap 0) = .ok (samplePartner 0) ∧
    DeliveryPartner.construct (samplePartnerMap 5) = .ok (samplePartner 5) ∧
    DeliveryPartner.construct (samplePartnerMap ratBelowZero) =
      .error [.constraintViolation [.field "rating"] "ge"] ∧
    DeliveryPartner.construct (samplePartnerMap ratAboveFive) =
      .error [.constraintViolation [.field "rating"] "le"] := by
  refine ⟨?_, ?_, ?_, by rfl, by rfl, by rfl, by rfl, by rfl, by rfl, by rfl,
    by rfl⟩
  · rintro name q ⟨h1, h2⟩
    simp [reqRatRange, Raw.toRat, h1, h2]
  · intro name q h
    simp [reqRatRange, Raw.toRat, not_le.2 h]
  · intro name q h
    have h0 : (0 : ℚ) ≤ q := le_trans (by norm_num) (le_of_lt h)
    simp [reqRatRange, Raw.toRat, h0, not_le.2 h]

/-- Witness for C8 at concrete rationals. -/
theorem rating_bounds_inclusive_witness :
    reqRatRange "rating" 0 5 (some (.rat 3)) = .ok 3 ∧
    reqRatRange "rating" 0 5 (some (.rat (-2))) =
      .error [.constraintViolation [.field "rating"] "ge"] ∧
    reqRatRange "rating" 0 5 (some (.rat 7)) =
      .error [.constraintViolation [.field "rating"] "le"] :=
  ⟨rating_bounds_inclusive.1 "rating" 3 (by decide),
   rating_bounds_inclusive.2.1 "rating" (-2) (by decide),
   rating_bounds_inclusive.2.2.1 "rating" 7 (by decide)⟩

/-- Claim C2: for every record type in the schema and every valid instance,
serializing to a raw mapping (under the wire aliases) and running the
construction entry point on that mapping succeeds and reproduces an equal
instance. -/
theorem roundtrip_construct_serialize :
    (∀ x : OrderModel, x.Valid →
      OrderModel.construct (OrderModel.serialize x) = .ok x) ∧
    (∀ x : Restaurant, x.Valid →
      Restaurant.construct (Restaurant.serialize x) = .ok x) ∧
    (∀ x : Item, x.Valid → Item.construct (Item.serialize x) = .ok x) ∧
    (∀ x : Pricing, x.Valid → Pricing.construct (Pricing.serialize x) = .ok x) ∧
    (∀ x : Payment, x.Valid → Payment.construct (Payment.serialize x) = .ok x) ∧
    (∀ x : DeliveryAddress, x.Valid →
      DeliveryAddress.construct (DeliveryAddress.serialize x) = .ok x) ∧
    (∀ x : DeliveryPartner, x.Valid →
      DeliveryPartner.construct (DeliveryPartner.serialize x) = .ok x) ∧
    (∀ x : Timeline, x.Valid →
      Timeline.construct (Timeline.serialize x) = .ok x) ∧
    (∀ x : Ratings, x.Valid → Ratings.construct (Ratings.serialize x) = .ok x) ∧
    (∀ x : Order, x.Valid → Order.construct (Order.serialize x) = .ok x) ∧
    (∀ x : RecentOrder, x.Valid →
      RecentOrder.construct (RecentOrder.serialize x) = .ok x) ∧
    (∀ x : Profile, x.Valid → Profile.construct (Profile.serialize x) = .ok x) ∧
    (∀ x : AccountStats, x.Valid →
      AccountStats.construct (AccountStats.serialize x) = .ok x) ∧
    (∀ x : Preferences, x.Valid →
      Preferences.construct (Preferences.serialize x) = .ok x) ∧
    (∀ x : Coupon, x.Valid → Coupon.construct (Coupon.serialize x) = .ok x) ∧
    (∀ x : LoyaltyRewards, x.Valid →
      LoyaltyRewards.construct (LoyaltyRewards.serialize x) = .ok x) ∧
    (∀ x : Customer, x.Valid → Customer.construct (Customer.serialize x) = .ok x) :=
  ⟨orderModel_roundtrip, restaurant_roundtrip,
   item_roundtrip, pricing_roundtrip,
   fun x _ => payment_roundtrip x, deliveryAddress_roundtrip,
   deliveryPartner_roundtrip, fun x _ => timeline_roundtrip x,
   ratings_roundtrip, order_roundtrip,
   recentOrder_roundtrip, fun x _ => profile_roundtrip x,
   accountStats_roundtrip, fun x _ => preferences_roundtrip x,
   fun x _ => coupon_roundtrip x, loyaltyRewards_roundtrip,
   customer_roundtrip⟩

/-- Witness for C2: the round trip reproduces a concrete valid order and a
concrete valid customer. -/
theorem roundtrip_construct_serialize_witness :
    Order.construct (Order.serialize (sampleOrder "ORD-1001" "CUST-100" "Asha Rao" 120)) =
      .ok (sampleOrder "ORD-1001" "CUST-100" "Asha Rao" 120) ∧
    Customer.construct (Customer.serialize sampleCustomer) = .ok sampleCustomer :=
  ⟨roundtrip_construct_serialize.2.2.2.2.2.2.2.2.2.1
     (sampleOrder "ORD-1001" "CUST-100" "Asha Rao" 120) (by decide),
   roundtrip_construct_serialize.2.2.2.2.2.2.2.2.2.2.2.2.2.2.2.2
     sampleCustomer (by decide)⟩

/-- A valid raw RecentOrder mapping with a parameterized orderId. -/
def sampleRecentOrderMapOf (oid : String) : RawMap :=
  [("orderId", .str oid),
   ("orderDate", .dt 90),
   ("status", .str "delivered"),
   ("restaurant", .map (sampleRestaurantMap 4)),
   ("items", .list [.map (sampleItemMap 120)]),
   ("pricing", .map samplePricingMap),
   ("payment", .map samplePaymentMap),
   ("deliveryAddress", .map (sampleAddressMap "560001")),
   ("deliveryPartner", .map (samplePartnerMap 4)),
   ("timeline", .map sampleTimelineMap),
   ("ratings", .map sampleRatingsMap)]

/-- The RecentOrder value the parameterized mapping constructs to. -/
def sampleRecentOrderOf (oid : String) : RecentOrder :=
  ⟨oid, 90, .delivered, sampleRestaurant 4, [sampleItem 120], samplePricing,
   samplePayment, sampleAddress "560001", samplePartner 4, sampleTimeline,
   sampleRatings⟩

/-- A valid raw Customer mapping with a parameterized customerId. -/
def sampleCustomerMapOf (cid : String) : RawMap :=
  [("customerId", .str cid),
   ("profile", .map sampleProfileMap),
   ("accountStats", .map sampleStatsMap),
   ("recentOrders", .list [.map sampleRecentOrderMap]),
   ("preferences", .map samplePreferencesMap),
   ("loyaltyRewards", .map sampleLoyaltyMap)]

/-- The Customer value the parameterized mapping constructs to. -/
def sampleCustomerOf (cid : String) : Customer :=
  ⟨cid, sampleProfile, sampleStats, [sampleRecentOrder], samplePreferences,
   sampleLoyalty⟩

def sampleOrderModelMap : RawMap :=
  [("orderId", .str "ORD-1001"),
   ("customerId", .str "CUST-100"),
   ("customerName", .str "Asha Rao")]

/-- Counterexample to claim C1: the Order aggregate imposes no minimum
length on its identity fields — an order whose orderId, customerId and
customerName all have fewer than 5 characters constructs successfully. -/
theorem identity_minlength_counterexample :
    Order.construct (sampleOrderMap "O-1" "C-1" "Asha" 120) =
      .ok (sampleOrder "O-1" "C-1" "Asha" 120) ∧
    ("O-1" : String).length < 5 ∧ ("C-1" : String).length < 5 ∧
    ("Asha" : String).length < 5 :=
  ⟨by rfl, by decide, by decide, by decide⟩

/-- Claim C1 (amended): only the OrderModel identity record enforces the
minimum length of 5 on orderId, customerId and customerName — construction
fails with a ConstraintViolation when a supplied string is shorter, and
every successfully constructed OrderModel has these fields of length at
least 5 — while the Order aggregate, RecentOrder (its orderId) and Customer (its
customerId) declare these fields without any length constraint, accepting
strings of any length. -/
theorem orderModel_minlength :
    (∀ (m : RawMap) (r : OrderModel), OrderModel.construct m = .ok r →
      5 ≤ r.orderId.length ∧ 5 ≤ r.customerId.length ∧
      5 ≤ r.customerName.length) ∧
    (∀ (m : RawMap) (s : String), m.lookup "orderId" = some (.str s) →
      s.length < 5 → ∃ es, OrderModel.construct m = .error es ∧
        VErr.constraintViolation [.field "orderId"] "min_length" ∈ es) ∧
    (∀ (m : RawMap) (s : String), m.lookup "customerId" = some (.str s) →
      s.length < 5 → ∃ es, OrderModel.construct m = .error es ∧
        VErr.constraintViolation [.field "customerId"] "min_length" ∈ es) ∧
    (∀ (m : RawMap) (s : String), m.lookup "customerName" = some (.str s) →
      s.length < 5 → ∃ es, OrderModel.construct m = .error es ∧
        VErr.constraintViolation [.field "customerName"] "min_length" ∈ es) ∧
    (∀ oid cid cname : String,
      Order.construct (sampleOrderMap oid cid cname 120) =
        .ok (sampleOrder oid cid cname 120)) ∧
    (∀ oid : String,
      RecentOrder.construct (sampleRecentOrderMapOf oid) =
        .ok (sampleRecentOrderOf oid)) ∧
    (∀ cid : String,
      Customer.construct (sampleCustomerMapOf cid) = .ok (sampleCustomerOf cid)) := by
  refine ⟨?_, ?_, ?_, ?_, ?_, ?_, ?_⟩
  · intro m r h
    unfold OrderModel.construct at h
    rw [vApp_ok_iff] at h
    obtain ⟨f, a3, h, h3, rfl⟩ := h
    rw [vApp_ok_iff] at h
    obtain ⟨f, a2, h, h2, rfl⟩ := h
    rw [vApp_ok_iff] at h
    obtain ⟨f, a1, h, h1, rfl⟩ := h
    injection h with h
    subst h
    exact ⟨reqStrMin_ok_length _ _ _ _ h1, reqStrMin_ok_length _ _ _ _ h2,
      reqStrMin_ok_length _ _ _ _ h3⟩
  · intro m s hm hlen
    apply error_mem_of_errsOf
    rw [orderModel_errs_construct]
    have h1 : reqStrMin "orderId" 5 (m.lookup "orderId") =
        .error [.constraintViolation [.field "orderId"] "min_length"] := by
      rw [hm]
      simp [reqStrMin, Nat.not_le.2 hlen]
    simp [h1, errsOf]
  · intro m s hm hlen
    apply error_mem_of_errsOf
    rw [orderModel_errs_construct]
    have h1 : reqStrMin "customerId" 5 (m.lookup "customerId") =
        .error [.constraintViolation [.field "customerId"] "min_length"] := by
      rw [hm]
      simp [reqStrMin, Nat.not_le.2 hlen]
    simp [h1, errsOf]
  · intro m s hm hlen
    apply error_mem_of_errsOf
    rw [orderModel_errs_construct]
    have h1 : reqStrMin "customerName" 5 (m.lookup "customerName") =
        .error [.constraintViolation [.field "customerName"] "min_length"] := by
      rw [hm]
      simp [reqStrMin, Nat.not_le.2 hlen]
    simp [h1, errsOf]
  · intro oid cid cname
    rfl
  · intro oid
    rfl
  · intro cid
    rfl

/-- Witness for C1 (amended) at concrete inputs. -/
theorem orderModel_minlength_witness :
    (5 ≤ ("ORD-1001" : String).length ∧ 5 ≤ ("CUST-100" : String).length ∧
      5 ≤ ("Asha Rao" : String).length) ∧
    (∃ es, OrderModel.construct
        [("orderId", Raw.str "O-1"), ("customerId", Raw.str "CUST-100"),
         ("customerName", Raw.str "Asha Rao")] = .error es ∧
      VErr.constraintViolation [.field "orderId"] "min_length" ∈ es) ∧
    RecentOrder.construct (sampleRecentOrderMapOf "R-1") =
      .ok (sampleRecentOrderOf "R-1") ∧
    Customer.construct (sampleCustomerMapOf "C-9") = .ok (sampleCustomerOf "C-9") :=
  ⟨orderModel_minlength.1 sampleOrderModelMap ⟨"ORD-1001", "CUST-100", "Asha Rao"⟩
     (by rfl),
   orderModel_minlength.2.1 _ "O-1" (by rfl) (by decide),
   orderModel_minlength.2.2.2.2.2.1 "R-1",
   orderModel_minlength.2.2.2.2.2.2 "C-9"⟩

/-- Counterexample to claim C3: Order's items sequence declares no default —
omitting it yields a MissingField failure, not an empty sequence. -/
theorem sequence_default_counterexample :
    Order.construct sampleOrderMapNoItems =
      .error [.missingField [.field "items"]] := by rfl

/-- Claim C3 (amended): every sequence field declared with a default-empty
factory (Item's customizations, AccountStats' and Preferences' string lists,
LoyaltyRewards' couponsAvailable, Customer's recentOrders) defaults to the
empty sequence when absent, never to an unset marker; but the items
sequences of Order and RecentOrder are declared without a default, so
omitting them fails with MissingField. -/
theorem sequence_defaults :
    (∀ name : String, optListStr name none = .ok []) ∧
    (∀ (α : Type) (name : String) (child : RawMap → VResult α),
      optListRec name child none = .ok []) ∧
    (∀ m : RawMap, m.lookup "customizations" = none →
      ∀ it : Item, Item.construct m = .ok it → it.customizations = []) ∧
    Item.construct sampleItemMapNoCust = .ok ⟨"Masala Dosa", 2, 120, []⟩ ∧
    (∀ m : RawMap, m.lookup "items" = none →
      ∃ es, Order.construct m = .error es ∧
        VErr.missingField [.field "items"] ∈ es) ∧
    (∀ m : RawMap, m.lookup "items" = none →
      ∃ es, RecentOrder.construct m = .error es ∧
        VErr.missingField [.field "items"] ∈ es) := by
  refine ⟨fun name => rfl, fun α name child => rfl, ?_, by rfl, ?_, ?_⟩
  · intro m hm it h
    unfold Item.construct at h
    rw [vApp_ok_iff] at h
    obtain ⟨f, a4, h, h4, rfl⟩ := h
    rw [vApp_ok_iff] at h
    obtain ⟨f, a3, h, h3, rfl⟩ := h
    rw [vApp_ok_iff] at h
    obtain ⟨f, a2, h, h2, rfl⟩ := h
    rw [vApp_ok_iff] at h
    obtain ⟨f, a1, h, h1, rfl⟩ := h
    injection h with h
    subst h
    rw [hm] at h4
    injection h4 with h4
    exact h4.symm
  · intro m hm
    apply error_mem_of_errsOf
    rw [order_errs_construct]
    have h1 : reqListRec "items" Item.construct (m.lookup "items") =
        .error [.missingField [.field "items"]] := by
      rw [hm]
      rfl
    simp [h1, errsOf]
  · intro m hm
    apply error_mem_of_errsOf
    rw [recentOrder_errs_construct]
    have h1 : reqListRec "items" Item.construct (m.lookup "items") =
        .error [.missingField [.field "items"]] := by
      rw [hm]
      rfl
    simp [h1, errsOf]

/-- Witness for C3 (amended) at concrete inputs. -/
theorem sequence_defaults_witness :
    (Item.mk "Masala Dosa" 2 120 []).customizations = [] ∧
    (∃ es, Order.construct sampleOrderMapNoItems = .error es ∧
      VErr.missingField [.field "items"] ∈ es) ∧
    (∃ es, RecentOrder.construct (sampleRecentOrderMap.erase "items") = .error es ∧
      VErr.missingField [.field "items"] ∈ es) :=
  ⟨sequence_defaults.2.2.1 sampleItemMapNoCust (by rfl) _ (by rfl),
   sequence_defaults.2.2.2.2.1 sampleOrderMapNoItems (by rfl),
   sequence_defaults.2.2.2.2.2 (sampleRecentOrderMap.erase "items") (by rfl)⟩

def badItemMap : RawMap :=
  [("name", .str "Masala Dosa"),
   ("quantity", .int 0),
   ("price", .rat (-1)),
   ("customizations", .list [])]

/-- Claim C4: validation does not short-circuit — when two independent
fields are each invalid, the aggregate failure report of a single
construction attempt contains at least two error entries. -/
theorem error_collection_no_shortcircuit :
    (∀ (m : RawMap) (e1 e2 : List VErr),
      reqIntGe "quantity" 1 (m.lookup "quantity") = .error e1 →
      reqRatGe "price" 0 (m.lookup "price") = .error e2 →
      ∃ es, Item.construct m = .error es ∧ 2 ≤ es.length) ∧
    (∀ (m : RawMap) (e1 e2 : List VErr),
      reqStr "orderId" (m.lookup "orderId") = .error e1 →
      reqEnum "status" OrderStatus.parse (m.lookup "status") = .error e2 →
      ∃ es, Order.construct m = .error es ∧ 2 ≤ es.length) := by
  constructor
  · intro m e1 e2 h1 h2
    have n1 : e1 ≠ [] := reqIntGe_error_ne _ _ _ _ h1
    have n2 : e2 ≠ [] := reqRatGe_error_ne _ _ _ _ h2
    have hl : 2 ≤ (errsOf (Item.construct m)).length := by
      rw [item_errs_construct, h1, h2]
      simp only [errsOf, List.length_append]
      have p1 : 0 < e1.length := List.length_pos.2 n1
      have p2 : 0 < e2.length := List.length_pos.2 n2
      omega
    have hne : errsOf (Item.construct m) ≠ [] := by
      intro hc
      rw [hc] at hl
      simp at hl
    exact ⟨_, eq_error_errsOf _ hne, hl⟩
  · intro m e1 e2 h1 h2
    have n1 : e1 ≠ [] := reqStr_error_ne _ _ _ h1
    have n2 : e2 ≠ [] := reqEnum_error_ne _ _ _ _ h2
    have hl : 2 ≤ (errsOf (Order.construct m)).length := by
      rw [order_errs_construct, h1, h2]
      simp only [errsOf, List.length_append]
      have p1 : 0 < e1.length := List.length_pos.2 n1
      have p2 : 0 < e2.length := List.length_pos.2 n2
      omega
    have hne : errsOf (Order.construct m) ≠ [] := by
      intro hc
      rw [hc] at hl
      simp at hl
    exact ⟨_, eq_error_errsOf _ hne, hl⟩

/-- Witness for C4: an item with quantity 0 and price -1 reports both
violations in one attempt. -/
theorem error_collection_no_shortcircuit_witness :
    ∃ es, Item.construct badItemMap = .error es ∧ 2 ≤ es.length :=
  error_collection_no_shortcircuit.1 badItemMap
    [.constraintViolation [.field "quantity"] "ge"]
    [.constraintViolation [.field "price"] "ge"] (by rfl) (by rfl)

/-- The declared external field names of the OrderModel record. -/
def orderModelKeys : List String :=
  ["orderId", "customerId", "customerName"]

/-- The declared external field names of the Restaurant record. -/
def restaurantKeys : List String :=
  ["restaurantId", "name", "location", "cuisine", "rating",
   "deliveryTime"]

/-- The declared external field names of the Item record. -/
def itemKeys : List String :=
  ["name", "quantity", "price", "customizations"]

/-- The declared external field names of the Pricing record. -/
def pricingKeys : List String :=
  ["itemTotal", "deliveryFee", "platformFee", "gst", "discount",
   "totalAmount"]

/-- The declared external field names of the Payment record. -/
def paymentKeys : List String :=
  ["method", "transactionId", "status"]

/-- The declared external field names of the DeliveryAddress record. -/
def deliveryAddressKeys : List String :=
  ["label", "address", "city", "pincode"]

/-- The declared external field names of the DeliveryPartner record. -/
def deliveryPartnerKeys : List String :=
  ["name", "rating", "phone"]

/-- The declared external field names of the Timeline record. -/
def timelineKeys : List String :=
  ["orderPlaced", "restaurantAccepted", "foodReady", "outForDelivery",
   "delivered"]

/-- The declared external field names of the Ratings record. -/
def ratingsKeys : List String :=
  ["food", "delivery", "review"]

/-- The declared external field names of the Order record. -/
def orderKeys : List String :=
  ["orderId", "customerId", "customerName", "orderDate", "status",
   "restaurant", "items", "pricing", "payment", "deliveryAddress",
   "deliveryPartner", "timeline", "ratings"]

/-- The declared external field names of the RecentOrder record. -/
def recentOrderKeys : List String :=
  ["orderId", "orderDate", "status", "restaurant", "items", "pricing",
   "payment", "deliveryAddress", "deliveryPartner", "timeline",
   "ratings"]

/-- The declared external field names of the Profile record. -/
def profileKeys : List String :=
  ["name", "email", "phone", "memberSince"]

/-- The declared external field names of the AccountStats record. -/
def accountStatsKeys : List String :=
  ["totalOrders", "lifetimeValue", "averageOrderValue",
   "favoriteRestaurants", "preferredCuisines", "savedAddresses"]

/-- The declared external field names of the Preferences record. -/
def preferencesKeys : List String :=
  ["dietaryRestrictions", "favoriteItems", "avoidIngredients",
   "spiceLevel"]

/-- The declared external field names of the Coupon record. -/
def couponKeys : List String :=
  ["code", "description", "validUntil"]

/-- The declared external field names of the LoyaltyRewards record. -/
def loyaltyRewardsKeys : List String :=
  ["currentPoints", "pointsToNextReward", "couponsAvailable"]

/-- The declared external field names of the Customer record. -/
def customerKeys : List String :=
  ["customerId", "profile", "accountStats", "recentOrders",
   "preferences", "loyaltyRewards"]

/-- Claim C10: a raw-input key that is neither a declared field name nor a
declared alias is silently ignored: adding it to any raw mapping leaves the
construction result unchanged, for every record type of the schema. -/
theorem unknown_keys_ignored :
    (∀ (m : RawMap) (k : String) (v : Raw), k ∉ orderModelKeys →
      OrderModel.construct ((k, v) :: m) = OrderModel.construct m) ∧
    (∀ (m : RawMap) (k : String) (v : Raw), k ∉ restaurantKeys →
      Restaurant.construct ((k, v) :: m) = Restaurant.construct m) ∧
    (∀ (m : RawMap) (k : String) (v : Raw), k ∉ itemKeys →
      Item.construct ((k, v) :: m) = Item.construct m) ∧
    (∀ (m : RawMap) (k : String) (v : Raw), k ∉ pricingKeys →
      Pricing.construct ((k, v) :: m) = Pricing.construct m) ∧
    (∀ (m : RawMap) (k : String) (v : Raw), k ∉ paymentKeys →
      Payment.construct ((k, v) :: m) = Payment.construct m) ∧
    (∀ (m : RawMap) (k : String) (v : Raw), k ∉ deliveryAddressKeys →
      DeliveryAddress.construct ((k, v) :: m) = DeliveryAddress.construct m) ∧
    (∀ (m : RawMap) (k : String) (v : Raw), k ∉ deliveryPartnerKeys →
      DeliveryPartner.construct ((k, v) :: m) = DeliveryPartner.construct m) ∧
    (∀ (m : RawMap) (k : String) (v : Raw), k ∉ timelineKeys →
      Timeline.construct ((k, v) :: m) = Timeline.construct m) ∧
    (∀ (m : RawMap) (k : String) (v : Raw), k ∉ ratingsKeys →
      Ratings.construct ((k, v) :: m) = Ratings.construct m) ∧
    (∀ (m : RawMap) (k : String) (v : Raw), k ∉ orderKeys →
      Order.construct ((k, v) :: m) = Order.construct m) ∧
    (∀ (m : RawMap) (k : String) (v : Raw), k ∉ recentOrderKeys →
      RecentOrder.construct ((k, v) :: m) = RecentOrder.construct m) ∧
    (∀ (m : RawMap) (k : String) (v : Raw), k ∉ profileKeys →
      Profile.construct ((k, v) :: m) = Profile.construct m) ∧
    (∀ (m : RawMap) (k : String) (v : Raw), k ∉ accountStatsKeys →
      AccountStats.construct ((k, v) :: m) = AccountStats.construct m) ∧
    (∀ (m : RawMap) (k : String) (v : Raw), k ∉ preferencesKeys →
      Preferences.construct ((k, v) :: m) = Preferences.construct m) ∧
    (∀ (m : RawMap) (k : String) (v : Raw), k ∉ couponKeys →
      Coupon.construct ((k, v) :: m) = Coupon.construct m) ∧
    (∀ (m : RawMap) (k : String) (v : Raw), k ∉ loyaltyRewardsKeys →
      LoyaltyRewards.construct ((k, v) :: m) = LoyaltyRewards.construct m) ∧
    (∀ (m : RawMap) (k : String) (v : Raw), k ∉ customerKeys →
      Customer.construct ((k, v) :: m) = Customer.construct m) := by
  refine ⟨?_, ?_, ?_, ?_, ?_, ?_, ?_, ?_, ?_, ?_, ?_, ?_, ?_, ?_, ?_, ?_, ?_⟩
  · intro m k v hk
    simp only [orderModelKeys, List.mem_cons, List.not_mem_nil, or_false,
      not_or] at hk
    obtain ⟨n1, n2, n3⟩ := hk
    unfold OrderModel.construct
    rw [RawMap.lookup_cons_ne _ _ _ _ n1,
      RawMap.lookup_cons_ne _ _ _ _ n2,
      RawMap.lookup_cons_ne _ _ _ _ n3]
  · intro m k v hk
    simp only [restaurantKeys, List.mem_cons, List.not_mem_nil, or_false,
      not_or] at hk
    obtain ⟨n1, n2, n3, n4, n5, n6⟩ := hk
    unfold Restaurant.construct
    rw [RawMap.lookup_cons_ne _ _ _ _ n1,
      RawMap.lookup_cons_ne _ _ _ _ n2,
      RawMap.lookup_cons_ne _ _ _ _ n3,
      RawMap.lookup_cons_ne _ _ _ _ n4,
      RawMap.lookup_cons_ne _ _ _ _ n5,
      RawMap.lookup_cons_ne _ _ _ _ n6]
  · intro m k v hk
    simp only [itemKeys, List.mem_cons, List.not_mem_nil, or_false,
      not_or] at hk
    obtain ⟨n1, n2, n3, n4⟩ := hk
    unfold Item.construct
    rw [RawMap.lookup_cons_ne _ _ _ _ n1,
      RawMap.lookup_cons_ne _ _ _ _ n2,
      RawMap.lookup_cons_ne _ _ _ _ n3,
      RawMap.lookup_cons_ne _ _ _ _ n4]
  · intro m k v hk
    simp only [pricingKeys, List.mem_cons, List.not_mem_nil, or_false,
      not_or] at hk
    obtain ⟨n1, n2, n3, n4, n5, n6⟩ := hk
    unfold Pricing.construct
    rw [RawMap.lookup_cons_ne _ _ _ _ n1,
      RawMap.lookup_cons_ne _ _ _ _ n2,
      RawMap.lookup_cons_ne _ _ _ _ n3,
      RawMap.lookup_cons_ne _ _ _ _ n4,
      RawMap.lookup_cons_ne _ _ _ _ n5,
      RawMap.lookup_cons_ne _ _ _ _ n6]
  · intro m k v hk
    simp only [paymentKeys, List.mem_cons, List.not_mem_nil, or_false,
      not_or] at hk
    obtain ⟨n1, n2, n3⟩ := hk
    unfold Payment.construct
    rw [RawMap.lookup_cons_ne _ _ _ _ n1,
      RawMap.lookup_cons_ne _ _ _ _ n2,
      RawMap.lookup_cons_ne _ _ _ _ n3]
  · intro m k v hk
    simp only [deliveryAddressKeys, List.mem_cons, List.not_mem_nil, or_false,
      not_or] at hk
    obtain ⟨n1, n2, n3, n4⟩ := hk
    unfold DeliveryAddress.construct
    rw [RawMap.lookup_cons_ne _ _ _ _ n1,
      RawMap.lookup_cons_ne _ _ _ _ n2,
      RawMap.lookup_cons_ne _ _ _ _ n3,
      RawMap.lookup_cons_ne _ _ _ _ n4]
  · intro m k v hk
    simp only [deliveryPartnerKeys, List.mem_cons, List.not_mem_nil, or_false,
      not_or] at hk
    obtain ⟨n1, n2, n3⟩ := hk
    unfold DeliveryPartner.construct
    rw [RawMap.lookup_cons_ne _ _ _ _ n1,
      RawMap.lookup_cons_ne _ _ _ _ n2,
      RawMap.lookup_cons_ne _ _ _ _ n3]
  · intro m k v hk
    simp only [timelineKeys, List.mem_cons, List.not_mem_nil, or_false,
      not_or] at hk
    obtain ⟨n1, n2, n3, n4, n5⟩ := hk
    unfold Timeline.construct
    rw [RawMap.lookup_cons_ne _ _ _ _ n1,
      RawMap.lookup_cons_ne _ _ _ _ n2,
      RawMap.lookup_cons_ne _ _ _ _ n3,
      RawMap.lookup_cons_ne _ _ _ _ n4,
      RawMap.lookup_cons_ne _ _ _ _ n5]
  · intro m k v hk
    simp only [ratingsKeys, List.mem_cons, List.not_mem_nil, or_false,
      not_or] at hk
    obtain ⟨n1, n2, n3⟩ := hk
    unfold Ratings.construct
    rw [RawMap.lookup_cons_ne _ _ _ _ n1,
      RawMap.lookup_cons_ne _ _ _ _ n2,
      RawMap.lookup_cons_ne _ _ _ _ n3]
  · intro m k v hk
    simp only [orderKeys, List.mem_cons, List.not_mem_nil, or_false,
      not_or] at hk
    obtain ⟨n1, n2, n3, n4, n5, n6, n7, n8, n9, n10, n11, n12, n13⟩ := hk
    unfold Order.construct
    rw [RawMap.lookup_cons_ne _ _ _ _ n1,
      RawMap.lookup_cons_ne _ _ _ _ n2,
      RawMap.lookup_cons_ne _ _ _ _ n3,
      RawMap.lookup_cons_ne _ _ _ _ n4,
      RawMap.lookup_cons_ne _ _ _ _ n5,
      RawMap.lookup_cons_ne _ _ _ _ n6,
      RawMap.lookup_cons_ne _ _ _ _ n7,
      RawMap.lookup_cons_ne _ _ _ _ n8,
      RawMap.lookup_cons_ne _ _ _ _ n9,
      RawMap.lookup_cons_ne _ _ _ _ n10,
      RawMap.lookup_cons_ne _ _ _ _ n11,
      RawMap.lookup_cons_ne _ _ _ _ n12,
      RawMap.lookup_cons_ne _ _ _ _ n13]
  · intro m k v hk
    simp only [recentOrderKeys, List.mem_cons, List.not_mem_nil, or_false,
      not_or] at hk
    obtain ⟨n1, n2, n3, n4, n5, n6, n7, n8, n9, n10, n11⟩ := hk
    unfold RecentOrder.construct
    rw [RawMap.lookup_cons_ne _ _ _ _ n1,
      RawMap.lookup_cons_ne _ _ _ _ n2,
      RawMap.lookup_cons_ne _ _ _ _ n3,
      RawMap.lookup_cons_ne _ _ _ _ n4,
      RawMap.lookup_cons_ne _ _ _ _ n5,
      RawMap.lookup_cons_ne _ _ _ _ n6,
      RawMap.lookup_cons_ne _ _ _ _ n7,
      RawMap.lookup_cons_ne _ _ _ _ n8,
      RawMap.lookup_cons_ne _ _ _ _ n9,
      RawMap.lookup_cons_ne _ _ _ _ n10,
      RawMap.lookup_cons_ne _ _ _ _ n11]
  · intro m k v hk
    simp only [profileKeys, List.mem_cons, List.not_mem_nil, or_false,
      not_or] at hk
    obtain ⟨n1, n2, n3, n4⟩ := hk
    unfold Profile.construct
    rw [RawMap.lookup_cons_ne _ _ _ _ n1,
      RawMap.lookup_cons_ne _ _ _ _ n2,
      RawMap.lookup_cons_ne _ _ _ _ n3,
      RawMap.lookup_cons_ne _ _ _ _ n4]
  · intro m k v hk
    simp only [accountStatsKeys, List.mem_cons, List.not_mem_nil, or_false,
      not_or] at hk
    obtain ⟨n1, n2, n3, n4, n5, n6⟩ := hk
    unfold AccountStats.construct
    rw [RawMap.lookup_cons_ne _ _ _ _ n1,
      RawMap.lookup_cons_ne _ _ _ _ n2,
      RawMap.lookup_cons_ne _ _ _ _ n3,
      RawMap.lookup_cons_ne _ _ _ _ n4,
      RawMap.lookup_cons_ne _ _ _ _ n5,
      RawMap.lookup_cons_ne _ _ _ _ n6]
  · intro m k v hk
    simp only [preferencesKeys, List.mem_cons, List.not_mem_nil, or_false,
      not_or] at hk
    obtain ⟨n1, n2, n3, n4⟩ := hk
    unfold Preferences.construct
    rw [RawMap.lookup_cons_ne _ _ _ _ n1,
      RawMap.lookup_cons_ne _ _ _ _ n2,
      RawMap.lookup_cons_ne _ _ _ _ n3,
      RawMap.lookup_cons_ne _ _ _ _ n4]
  · intro m k v hk
    simp only [couponKeys, List.mem_cons, List.not_mem_nil, or_false,
      not_or] at hk
    obtain ⟨n1, n2, n3⟩ := hk
    unfold Coupon.construct
    rw [RawMap.lookup_cons_ne _ _ _ _ n1,
      RawMap.lookup_cons_ne _ _ _ _ n2,
      RawMap.lookup_cons_ne _ _ _ _ n3]
  · intro m k v hk
    simp only [loyaltyRewardsKeys, List.mem_cons, List.not_mem_nil, or_false,
      not_or] at hk
    obtain ⟨n1, n2, n3⟩ := hk
    unfold LoyaltyRewards.construct
    rw [RawMap.lookup_cons_ne _ _ _ _ n1,
      RawMap.lookup_cons_ne _ _ _ _ n2,
      RawMap.lookup_cons_ne _ _ _ _ n3]
  · intro m k v hk
    simp only [customerKeys, List.mem_cons, List.not_mem_nil, or_false,
      not_or] at hk
    obtain ⟨n1, n2, n3, n4, n5, n6⟩ := hk
    unfold Customer.construct
    rw [RawMap.lookup_cons_ne _ _ _ _ n1,
      RawMap.lookup_cons_ne _ _ _ _ n2,
      RawMap.lookup_cons_ne _ _ _ _ n3,
      RawMap.lookup_cons_ne _ _ _ _ n4,
      RawMap.lookup_cons_ne _ _ _ _ n5,
      RawMap.lookup_cons_ne _ _ _ _ n6]

/-- Witness for C10 at concrete inputs, exercising leaf, mid-level and
aggregate record types. -/
theorem unknown_keys_ignored_witness :
    Order.construct
        (("mystery", .str "zzz") :: sampleOrderMap "ORD-1001" "CUST-100" "Asha Rao" 120) =
      Order.construct (sampleOrderMap "ORD-1001" "CUST-100" "Asha Rao" 120) ∧
    Customer.construct (("mystery", .int 7) :: sampleCustomerMap) =
      Customer.construct sampleCustomerMap ∧
    Restaurant.construct (("mystery", .null) :: sampleRestaurantMap 4) =
      Restaurant.construct (sampleRestaurantMap 4) ∧
    Item.construct (("mystery", .rat 1) :: sampleItemMap 120) =
      Item.construct (sampleItemMap 120) ∧
    RecentOrder.construct (("mystery", .str "x") :: sampleRecentOrderMap) =
      RecentOrder.construct sampleRecentOrderMap ∧
    Payment.construct (("mystery", .dt 0) :: samplePaymentMap) =
      Payment.construct samplePaymentMap :=
  ⟨unknown_keys_ignored.2.2.2.2.2.2.2.2.2.1 _ "mystery" _ (by decide),
   unknown_keys_ignored.2.2.2.2.2.2.2.2.2.2.2.2.2.2.2.2 _ "mystery" _ (by decide),
   unknown_keys_ignored.2.1 _ "mystery" _ (by decide),
   unknown_keys_ignored.2.2.1 _ "mystery" _ (by decide),
   unknown_keys_ignored.2.2.2.2.2.2.2.2.2.2.1 _ "mystery" _ (by decide),
   unknown_keys_ignored.2.2.2.2.1 _ "mystery" _ (by decide)⟩

/-- Claim C9: RecentOrder is the Order shape minus customerId/customerName,
with identical types, aliases and constraints on every shared field: any raw
mapping accepted by Order, with those two keys deleted, is accepted by
RecentOrder with the same shared field values; conversely any mapping
accepted by RecentOrder, extended with arbitrary string values for
customerId and customerName, is accepted by Order. -/
theorem recentOrder_parallel_order :
    (∀ (m : RawMap) (o : Order), Order.construct m = .ok o →
      RecentOrder.construct ((m.erase "customerId").erase "customerName") =
        .ok ⟨o.orderId, o.orderDate, o.status, o.restaurant, o.items,
             o.pricing, o.payment, o.deliveryAddress, o.deliveryPartner,
             o.timeline, o.ratings⟩) ∧
    (∀ (m : RawMap) (r : RecentOrder) (cid cname : String),
      RecentOrder.construct m = .ok r →
      Order.construct
          (("customerId", .str cid) :: ("customerName", .str cname) :: m) =
        .ok ⟨r.orderId, cid, cname, r.orderDate, r.status, r.restaurant,
             r.items, r.pricing, r.payment, r.deliveryAddress,
             r.deliveryPartner, r.timeline, r.ratings⟩) := by
  constructor
  · intro m o h
    obtain ⟨h1, h2, h3, h4, h5, h6, h7, h8, h9, h10, h11, h12, h13⟩ :=
      order_construct_ok_elim h
    have el : ∀ name : String, name ≠ "customerId" → name ≠ "customerName" →
        ((m.erase "customerId").erase "customerName").lookup name =
          m.lookup name := by
      intro name hn1 hn2
      rw [RawMap.erase_lookup _ _ _ hn2, RawMap.erase_lookup _ _ _ hn1]
    exact recentOrder_construct_ok_intro
      (by rw [el "orderId" (by decide) (by decide)]; exact h1)
      (by rw [el "orderDate" (by decide) (by decide)]; exact h4)
      (by rw [el "status" (by decide) (by decide)]; exact h5)
      (by rw [el "restaurant" (by decide) (by decide)]; exact h6)
      (by rw [el "items" (by decide) (by decide)]; exact h7)
      (by rw [el "pricing" (by decide) (by decide)]; exact h8)
      (by rw [el "payment" (by decide) (by decide)]; exact h9)
      (by rw [el "deliveryAddress" (by decide) (by decide)]; exact h10)
      (by rw [el "deliveryPartner" (by decide) (by decide)]; exact h11)
      (by rw [el "timeline" (by decide) (by decide)]; exact h12)
      (by rw [el "ratings" (by decide) (by decide)]; exact h13)
  · intro m r cid cname h
    obtain ⟨h1, h2, h3, h4, h5, h6, h7, h8, h9, h10, h11⟩ :=
      recentOrder_construct_ok_elim h
    have cl : ∀ name : String, name ≠ "customerId" → name ≠ "customerName" →
        RawMap.lookup
            (("customerId", Raw.str cid) :: ("customerName", Raw.str cname) :: m)
            name = m.lookup name := by
      intro name hn1 hn2
      rw [RawMap.lookup_cons_ne _ _ _ _ (fun hh => hn1 hh.symm),
        RawMap.lookup_cons_ne _ _ _ _ (fun hh => hn2 hh.symm)]
    exact order_construct_ok_intro
      (by rw [cl "orderId" (by decide) (by decide)]; exact h1)
      (by rfl)
      (by rfl)
      (by rw [cl "orderDate" (by decide) (by decide)]; exact h2)
      (by rw [cl "status" (by decide) (by decide)]; exact h3)
      (by rw [cl "restaurant" (by decide) (by decide)]; exact h4)
      (by rw [cl "items" (by decide) (by decide)]; exact h5)
      (by rw [cl "pricing" (by decide) (by decide)]; exact h6)
      (by rw [cl "payment" (by decide) (by decide)]; exact h7)
      (by rw [cl "deliveryAddress" (by decide) (by decide)]; exact h8)
      (by rw [cl "deliveryPartner" (by decide) (by decide)]; exact h9)
      (by rw [cl "timeline" (by decide) (by decide)]; exact h10)
      (by rw [cl "ratings" (by decide) (by decide)]; exact h11)

/-- Witness for C9: deleting and re-adding the customer identity keys on
concrete mappings. -/
theorem recentOrder_parallel_order_witness :
    RecentOrder.construct
        (((sampleOrderMap "ORD-1001" "CUST-100" "Asha Rao" 120).erase
          "customerId").erase "customerName") =
      .ok ⟨"ORD-1001", 100, .delivered, sampleRestaurant 4, [sampleItem 120],
           samplePricing, samplePayment, sampleAddress "560001",
           samplePartner 4, sampleTimeline, sampleRatings⟩ ∧
    Order.construct
        (("customerId", .str "CUST-200") :: ("customerName", .str "Vikram") ::
          sampleRecentOrderMap) =
      .ok ⟨"ORD-0999", "CUST-200", "Vikram", 90, .delivered,
           sampleRestaurant 4, [sampleItem 120], samplePricing, samplePayment,
           sampleAddress "560001", samplePartner 4, sampleTimeline,
           sampleRatings⟩ :=
  ⟨recentOrder_parallel_order.1 (sampleOrderMap "ORD-1001" "CUST-100" "Asha Rao" 120)
     (sampleOrder "ORD-1001" "CUST-100" "Asha Rao" 120) (by rfl),
   recentOrder_parallel_order.2 sampleRecentOrderMap sampleRecentOrder
     "CUST-200" "Vikram" (by rfl)⟩
